import Mathlib

/-!
# vimpc: the client-side synchronisation layer of `src/mpdclient.cpp`

A shallow embedding of `Mpc::Client`.  The class is a record of its member
fields (`Client`); everything the class talks to is a second record (`World`):
the settings, the two environment variables, the daemon (as one oracle per
library call that reads an answer), the mirrored queue `Main::Playlist()`,
the screen geometry, and the three outputs (library calls issued, errors
handed to the error sink, requests made to the user interface).

Integers.  The class declaration (`mpdclient.hpp`) is not among the sources,
so the width of the member fields is not known: they are mathematical
integers here.  32-bit wraparound is modelled wherever the text of
`mpdclient.cpp` fixes the width: `uint32_t` parameters, `unsigned int`
locals, `static_cast<uint32_t>`, the `uint16_t` port, and arithmetic on the
`unsigned` values returned by libmpdclient.
-/

namespace Mpc

/-! ## Data model -/

/-- Playback states of libmpdclient (`enum mpd_state`). -/
inductive MpdState where
  | MPD_STATE_UNKNOWN
  | MPD_STATE_STOP
  | MPD_STATE_PLAY
  | MPD_STATE_PAUSE
deriving DecidableEq, Repr

/-- Error state of a connection as `CheckError` sees it: `success` is
`MPD_ERROR_SUCCESS`, `clearable` an error that `mpd_connection_clear_error`
clears, `fatal` one that it cannot clear. -/
inductive ConnError where
  | success
  | clearable
  | fatal
deriving DecidableEq, Repr

/-- The fields of `struct mpd_song` that the client reads. -/
structure MpdSong where
  pos : Nat
  uri : String
  duration : Nat
  artist : Option String
  title : Option String
  album : Option String
  track : Option String
deriving DecidableEq, Repr

/-- An entry of the mirrored queue (`Mpc::Song`), as `CreateSong` fills it. -/
structure Song where
  artist : Option String
  album : Option String
  title : Option String
  track : Option String
  uri : String
  duration : Nat
deriving DecidableEq, Repr

/-- The fields of `struct mpd_status` that the client reads. -/
structure MpdStatus where
  queue_version : Nat
  queue_length : Nat
  volume : Int
  random : Bool
  repeat_ : Bool
  single : Bool
  consume : Bool
  crossfade : Nat
  state : MpdState
  elapsed_time : Nat
deriving DecidableEq, Repr

/-- The connection object of libmpdclient (`struct mpd_connection`): its error
state and the server version it learnt on connecting. -/
structure Connection where
  error : ConnError
  server_version : Option (Nat × Nat × Nat)
deriving DecidableEq, Repr

/-- Windows of the screen that `Connect` distinguishes. -/
inductive Window where
  | Library
  | Playlist
  | Other (n : Nat)
deriving DecidableEq, Repr

/-- What reaches the error sink (`Error` / `ErrorString`). -/
inductive ErrorNumber where
  | ClientError
  | ClientNoConnection
deriving DecidableEq, Repr

/-- The libmpdclient calls the client issues on its connection. -/
inductive Call where
  | mpd_connection_new (host : String) (port : Nat)
  | mpd_connection_free
  | mpd_response_finish
  | mpd_send_password (password : String)
  | mpd_send_play_pos (pos : Nat)
  | mpd_send_toggle_pause
  | mpd_send_stop
  | mpd_send_next
  | mpd_send_previous
  | mpd_send_seek_pos (pos : Nat) (time : Nat)
  | mpd_send_random (b : Bool)
  | mpd_send_single (b : Bool)
  | mpd_send_consume (b : Bool)
  | mpd_send_repeat (b : Bool)
  | mpd_send_crossfade (seconds : Nat)
  | mpd_send_set_volume (volume : Nat)
  | mpd_send_shuffle
  | mpd_send_move (p1 p2 : Nat)
  | mpd_send_swap (p1 p2 : Nat)
  | mpd_run_save (name : String)
  | mpd_run_playlist_clear (name : String)
  | mpd_run_load (name : String)
  | mpd_run_rm (name : String)
  | mpd_send_playlist_add (name uri : String)
  | mpd_run_enable_output (id : Nat)
  | mpd_run_disable_output (id : Nat)
  | mpd_send_add (uri : String)
  | mpd_send_add_id_to (uri : String) (pos : Nat)
  | mpd_send_delete (pos : Nat)
  | mpd_send_delete_range (p1 p2 : Nat)
  | mpd_send_clear
  | mpd_search_db_songs (exact : Bool)
  | mpd_search_add_any_tag_constraint (value : String)
  | mpd_search_add_tag_constraint (tag value : String)
  | mpd_send_rescan (path : String)
  | mpd_send_update (path : String)
  | mpd_run_current_song
  | mpd_command_list_begin
  | mpd_command_list_end
  | mpd_run_status
  | mpd_send_queue_changes_meta (version : Nat)
deriving DecidableEq, Repr

/-- Requests the client makes to the user interface. -/
inductive UiCall where
  | ModeRefresh
  | ScreenUpdate
  | OnConnected
  | InvalidateAll
  | Redraw (w : Window)
  | SetStatusLine (position : Int) (artist title : String)
  | ClearStatusLine
  | MoveSetStatus (column : Int) (m1 s1 m2 s2 : Nat)
deriving DecidableEq, Repr

/-- The member fields of `Mpc::Client`. -/
structure Client where
  connection_ : Option Connection
  hostname_ : String
  port_ : Nat
  versionMajor_ : Int
  versionMinor_ : Int
  versionPatch_ : Int
  timeSinceUpdate_ : Int
  timeSinceSong_ : Int
  retried_ : Bool
  volume_ : Int
  random_ : Bool
  repeat_ : Bool
  single_ : Bool
  consume_ : Bool
  crossfade_ : Bool
  crossfadeTime_ : Nat
  elapsed_ : Nat
  mpdelapsed_ : Nat
  state_ : MpdState
  mpdstate_ : MpdState
  currentSong_ : Option MpdSong
  currentStatus_ : Option MpdStatus
  currentSongId_ : Int
  currentSongURI_ : String
  currentState_ : String
  queueVersion_ : Int
  forceUpdate_ : Bool
  listMode_ : Bool
  idleMode_ : Bool
deriving DecidableEq, Repr

/-- Everything outside the class.  The daemon is one list of answers per
library call that reads one; a call takes the head of its list, and an
exhausted list answers with success. -/
structure World where
  /-- Embeds `Setting::Reconnect`. -/
  Reconnect : Bool
  /-- Embeds `Setting::TimeRemaining`. -/
  TimeRemaining : Bool
  /-- Embeds `getenv("MPD_HOST")`. -/
  MPD_HOST : Option String
  /-- Embeds `getenv("MPD_PORT")`. -/
  MPD_PORT : Option String
  /-- Answers of `mpd_connection_new`: the new connection, `none` for NULL. -/
  connectResults : List (Option Connection)
  /-- Error state left by `vimpc_->OnConnected()`, whose body is not known. -/
  onConnectedResults : List ConnError
  /-- Error state left by `mpd_response_finish`. -/
  finishResults : List ConnError
  /-- Answers of `mpd_run_status`. -/
  statusResults : List (ConnError × Option MpdStatus)
  /-- Answers of `mpd_run_current_song`. -/
  songResults : List (ConnError × Option MpdSong)
  /-- Answers to the queue-changes request: the changed entries. -/
  changeResults : List (List MpdSong)
  /-- Embeds `Main::Playlist()`, the mirrored queue. -/
  playlist : List Song
  /-- Embeds `screen_.MaxRows()`. -/
  MaxRows : Nat
  /-- Embeds `screen_.MaxColumns()`. -/
  MaxColumns : Nat
  /-- Embeds `screen_.ActiveWindow().FirstLine()`. -/
  FirstLine : Nat
  /-- Embeds `screen_.GetActiveWindow()`. -/
  activeWindow : Window
  /-- Library calls issued so far, oldest first. -/
  calls : List Call
  /-- Errors handed to the error sink so far, oldest first. -/
  errors : List ErrorNumber
  /-- Requests made to the user interface so far, oldest first. -/
  ui : List UiCall
  /-- Set when a library call is made on a NULL connection or a getter on a
  NULL status: the C++ has no defined behaviour from there on. -/
  nullDeref : Bool
  /-- Set when the model ran out of fuel for nested automatic reconnects. -/
  fuelOut : Bool
deriving DecidableEq, Repr

/-- The client together with its surroundings. -/
structure Sys where
  c : Client
  w : World
deriving DecidableEq, Repr

/-! ## Machine integers -/

/-- Conversion to `uint32_t`. -/
def u32 (x : Int) : Nat := (x % 4294967296).toNat

/-- Subtraction of two `uint32_t` values. -/
def subU32 (a b : Nat) : Nat := (a % 4294967296 + 4294967296 - b % 4294967296) % 4294967296

/-- Addition of two `uint32_t` values. -/
def addU32 (a b : Nat) : Nat := (a + b) % 4294967296

/-- Conversion to `uint16_t`. -/
def u16 (x : Int) : Nat := (x % 65536).toNat

/-! ## Helper functions -/

/-- Embeds `Mpc::SecondsToMinutes`. -/
def SecondsToMinutes (duration : Nat) : Nat := duration / 60

/-- Embeds `Mpc::RemainingSeconds`. -/
def RemainingSeconds (duration : Nat) : Nat :=
  subU32 duration ((SecondsToMinutes duration * 60) % 4294967296)

/-- Embeds `std::string::find_last_of` for a one-character set: index of the last
occurrence, `none` for `npos`. -/
def find_last_of : List Char → Char → Option Nat
  | [], _ => none
  | c :: cs, ch =>
    match find_last_of cs ch with
    | some i => some (i + 1)
    | none => if c = ch then some 0 else none

/-- Embeds `isspace` of the C locale. -/
def isspace (c : Char) : Bool :=
  c.toNat = 32 || (decide (9 ≤ c.toNat) && decide (c.toNat ≤ 13))

/-- The digits at the head of a string, accumulated onto `acc`, as `atoi` reads them. -/
def atoiDigits : List Char → Nat → Nat
  | [], acc => acc
  | c :: cs, acc => if c.isDigit then atoiDigits cs (acc * 10 + (c.toNat - 48)) else acc

/-- The sign and digits of `atoi`, after the leading white space. -/
def atoiSigned : List Char → Int
  | '-' :: cs => - (atoiDigits cs 0 : Int)
  | '+' :: cs => (atoiDigits cs 0 : Int)
  | cs => (atoiDigits cs 0 : Int)

/-- C `atoi`: leading white space, an optional sign, then decimal digits. -/
def atoi (s : List Char) : Int := atoiSigned (s.dropWhile isspace)

/-- Modelled from the spec: the default argument of `UpdateStatus(bool ExpectUpdate)`,
declared in `mpdclient.hpp`, which is not among the sources.  A poll is flagged
"change expected locally" only where the caller says so, so a call without
argument does not expect the change. -/
abbrev ExpectUpdate_default : Bool := false

/-- Modelled from the spec: the default argument of
`CommandList(Mpc::Client &, bool condition)`, declared in `mpdclient.hpp`, which
is not among the sources.  The scope opens a batch when the caller-supplied
condition holds; a caller that supplies none gets the batch. -/
abbrev condition_default : Bool := true

/-! ## State plumbing -/

/-- Embeds `Client::Client`: the freshly constructed client.  `mpdelapsed_` has no
initialiser in the constructor; it is read only behind `currentSong_ != NULL`. -/
def Client.new : Client :=
  { connection_ := none, hostname_ := "", port_ := 0,
    versionMajor_ := -1, versionMinor_ := -1, versionPatch_ := -1,
    timeSinceUpdate_ := 0, timeSinceSong_ := 0, retried_ := false,
    volume_ := 100, random_ := false, repeat_ := false, single_ := false,
    consume_ := false, crossfade_ := false, crossfadeTime_ := 0, elapsed_ := 0,
    mpdelapsed_ := 0,
    state_ := .MPD_STATE_STOP, mpdstate_ := .MPD_STATE_UNKNOWN,
    currentSong_ := none, currentStatus_ := none, currentSongId_ := -1,
    currentSongURI_ := "", currentState_ := "Disconnected",
    queueVersion_ := -1, forceUpdate_ := true, listMode_ := false, idleMode_ := false }

/-- Update of the client fields. -/
def Sys.setC (s : Sys) (f : Client → Client) : Sys := { s with c := f s.c }

/-- Update of the surroundings. -/
def Sys.setW (s : Sys) (f : World → World) : Sys := { s with w := f s.w }

/-- Embeds `Client::Connected`. -/
def Connected (s : Sys) : Bool := s.c.connection_.isSome

/-- A library call on `connection_`: recorded when the handle is held; on a
NULL handle the C++ is undefined, which the model flags. -/
def libcall (k : Call) (s : Sys) : Sys :=
  match s.c.connection_ with
  | some _ => s.setW fun w => { w with calls := w.calls ++ [k] }
  | none => s.setW fun w => { w with nullDeref := true }

/-- The error state of the held connection becomes `e`. -/
def setError (e : ConnError) (s : Sys) : Sys :=
  s.setC fun c => { c with connection_ := c.connection_.map fun k => { k with error := e } }

/-- Modelled from the spec: `Error(ErrorNumber::ClientError, ...)` and
`ErrorString(...)` of `window/error.hpp`, which is not among the sources; all
errors are funneled through a single reporting sink call. -/
def Error (e : ErrorNumber) (s : Sys) : Sys :=
  s.setW fun w => { w with errors := w.errors ++ [e] }

/-- A request to the user interface. -/
def uiCall (u : UiCall) (s : Sys) : Sys :=
  s.setW fun w => { w with ui := w.ui ++ [u] }

/-- Embeds `Client::TotalNumberOfSongs`. -/
def TotalNumberOfSongs (s : Sys) : Nat :=
  match s.c.connection_, s.c.currentStatus_ with
  | some _, some st => st.queue_length
  | _, _ => 0

/-- Embeds `Client::DeleteConnection`. -/
def DeleteConnection (s : Sys) : Sys :=
  let s := s.setC fun c =>
    { c with listMode_ := false, currentState_ := "Disconnected", volume_ := -1,
             random_ := false, single_ := false, consume_ := false, repeat_ := false,
             versionMajor_ := -1, versionMinor_ := -1, versionPatch_ := -1,
             queueVersion_ := -1 }
  match s.c.connection_ with
  | some _ => (libcall .mpd_connection_free s).setC fun c => { c with connection_ := none }
  | none => s

/-- The type of `Client::Connect`, as `CheckError` calls it for the automatic reconnect. -/
abbrev Reconnector := String → Nat → Sys → Sys

/-- Embeds `Client::CheckError`; `rc` is the `Connect` it calls. -/
def CheckError (rc : Reconnector) (s : Sys) : Sys :=
  match s.c.connection_ with
  | none => s
  | some conn =>
    if conn.error ≠ .success then
      let s := Error .ClientError s
      -- bool ClearError = mpd_connection_clear_error(connection_)
      if conn.error = .fatal then
        let s := DeleteConnection s
        if s.w.Reconnect = true ∧ s.c.retried_ = false then
          let s := s.setC fun c => { c with retried_ := true }
          rc s.c.hostname_ s.c.port_ s
        else s
      else setError .success s
    else s

/-- Embeds `mpd_response_finish(connection_)`. -/
def mpd_response_finish (s : Sys) : Sys :=
  match s.c.connection_ with
  | none => libcall .mpd_response_finish s
  | some _ =>
    let s := libcall .mpd_response_finish s
    let s := setError (s.w.finishResults.headD .success) s
    s.setW fun w => { w with finishResults := w.finishResults.tail }

/-- Embeds `Client::ClearCommand`. -/
def ClearCommand (rc : Reconnector) (s : Sys) : Sys :=
  if s.c.listMode_ = false ∧ Connected s = true then
    CheckError rc (mpd_response_finish s)
  else s

/-- Embeds `currentSong_ = mpd_run_current_song(connection_)`. -/
def mpd_run_current_song (s : Sys) : Sys :=
  match s.c.connection_ with
  | none => (libcall .mpd_run_current_song s).setC fun c => { c with currentSong_ := none }
  | some _ =>
    let r := s.w.songResults.headD (.success, none)
    let s := libcall .mpd_run_current_song s
    let s := setError r.1 s
    let s := s.setW fun w => { w with songResults := w.songResults.tail }
    s.setC fun c => { c with currentSong_ := r.2 }

/-- Embeds `Client::UpdateCurrentSong`. -/
def UpdateCurrentSong (rc : Reconnector) (s : Sys) : Sys :=
  if Connected s = true then
    if s.c.listMode_ = false then
      let s := if s.c.currentSong_.isSome then
          s.setC fun c => { c with currentSong_ := none, currentSongId_ := -1, currentSongURI_ := "" }
        else s
      if s.c.state_ ≠ .MPD_STATE_STOP then
        let s := ClearCommand rc s
        let s := s.setC fun c => { c with timeSinceSong_ := 0 }
        let s := mpd_run_current_song s
        let s := CheckError rc s
        match s.c.currentSong_ with
        | some song =>
          s.setC fun c => { c with currentSongId_ := (song.pos : Int), currentSongURI_ := song.uri }
        | none => s
      else s
    else s
  else s.setC fun c => { c with currentSongId_ := -1, currentSongURI_ := "" }

/-- Embeds `Client::CreateSong`. -/
def CreateSong (song : MpdSong) : Song :=
  { artist := song.artist, album := song.album, title := song.title, track := song.track,
    uri := song.uri, duration := song.duration }

/-- Modelled from the spec: `Mpc::Playlist::Replace` of `buffer/playlist.hpp`,
which is not among the sources; a replayed entry is written into the slot at
its daemon position, and an entry past the end of the mirror extends the
mirror. -/
def Replace (position : Nat) (song : Song) (q : List Song) : List Song :=
  if position < q.length then q.set position song else q ++ [song]

/-- Modelled from the spec: `Mpc::Playlist::Crop` of `buffer/playlist.hpp`, which
is not among the sources; the mirror is truncated to the given length. -/
def Crop (n : Nat) (q : List Song) : List Song := q.take n

/-- The replay of a list of changed entries into a mirror. -/
def replay (changes : List MpdSong) (q : List Song) : List Song :=
  changes.foldl (fun q song => Replace song.pos (CreateSong song) q) q

/-- Modelled from the spec:
`Client::ForEachQueuedSongChanges(oldVersion, Main::Playlist(), &Playlist::Replace)`,
a template of `mpdclient.hpp`, which is not among the sources; the entries
changed since `oldVersion`, each identified by its daemon position plus fresh
metadata, are replayed into the mirror. -/
def ForEachQueuedSongChanges (oldVersion : Nat) (s : Sys) : Sys :=
  if Connected s = true then
    let s := libcall (.mpd_send_queue_changes_meta oldVersion) s
    let changes := s.w.changeResults.headD []
    s.setW fun w =>
      { w with changeResults := w.changeResults.tail, playlist := replay changes w.playlist }
  else s

/-- Embeds `currentStatus_ = mpd_run_status(connection_)`. -/
def mpd_run_status (s : Sys) : Sys :=
  match s.c.connection_ with
  | none => (libcall .mpd_run_status s).setC fun c => { c with currentStatus_ := none }
  | some _ =>
    let r := s.w.statusResults.headD (.success, none)
    let s := libcall .mpd_run_status s
    let s := setError r.1 s
    let s := s.setW fun w => { w with statusResults := w.statusResults.tail }
    s.setC fun c => { c with currentStatus_ := r.2 }

/-- The test "Check if we need to update the current song" of `UpdateStatus`.
`mpd_song_get_duration` is `unsigned`, so `duration - 3` is computed modulo 2^32. -/
def needSongUpdate (c : Client) (st : MpdStatus) : Bool :=
  (c.mpdstate_ != st.state) ||
  ((c.mpdstate_ != .MPD_STATE_STOP) && c.currentSong_.isNone) ||
  (match c.currentSong_ with
   | some song =>
     (decide (c.elapsed_ ≥ subU32 song.duration 3)) ||
     (decide (st.elapsed_time < c.mpdelapsed_)) ||
     (decide (st.elapsed_time ≤ 3))
   | none => false)

/-- The test that guards the replay in `UpdateStatus`, on the stored
`queueVersion_`, the `unsigned` locals `version` and `qVersion`, and `ExpectUpdate`. -/
def needReplay (queueVersion : Int) (version qVersion : Nat) (ExpectUpdate : Bool) : Bool :=
  (decide (queueVersion > -1)) &&
  ((decide (version > addU32 qVersion 1)) ||
   ((decide (version > qVersion)) && (ExpectUpdate == false)))

/-- Lines 1175 to 1182 of `UpdateStatus`: the reconciliation of the mirrored
queue against the daemon's queue version `version`. -/
def reconcile (ExpectUpdate : Bool) (version qVersion : Nat) (s : Sys) : Sys :=
  let s := if needReplay s.c.queueVersion_ version qVersion ExpectUpdate then
      let s := ForEachQueuedSongChanges qVersion s
      s.setW fun w => { w with playlist := Crop (TotalNumberOfSongs s) w.playlist }
    else s
  s.setC fun c => { c with queueVersion_ := (version : Int) }

/-- Lines 1148 to 1158 of `UpdateStatus`: the playback options are taken from
the status. -/
def applyStatus (st : MpdStatus) (s : Sys) : Sys :=
  let s := s.setC fun c =>
    { c with volume_ := st.volume, random_ := st.random, repeat_ := st.repeat_,
             single_ := st.single, consume_ := st.consume,
             crossfade_ := decide (st.crossfade > 0) }
  if s.c.crossfade_ = true then
    s.setC fun c => { c with crossfadeTime_ := st.crossfade }
  else s

/-- Lines 1160 to 1169 of `UpdateStatus`: the current song is refreshed when
the test says so. -/
def songStep (rc : Reconnector) (st : MpdStatus) (s : Sys) : Sys :=
  if needSongUpdate s.c st then UpdateCurrentSong rc s else s

/-- Lines 1171 to 1182 of `UpdateStatus`: the playback state is taken from the
status, read again through the member `currentStatus_`, and the queue is
reconciled. -/
def settleStatus (ExpectUpdate : Bool) (version qVersion : Nat) (s : Sys) : Sys :=
  match s.c.currentStatus_ with
  | some st2 =>
    let s := s.setC fun c =>
      { c with mpdstate_ := st2.state, mpdelapsed_ := st2.elapsed_time, state_ := st2.state }
    reconcile ExpectUpdate version qVersion s
  | none => s.setW fun w => { w with nullDeref := true }

/-- Embeds `Client::UpdateStatus`. -/
def UpdateStatus (rc : Reconnector) (ExpectUpdate : Bool) (s : Sys) : Sys :=
  let s := ClearCommand rc s
  if Connected s = true ∧ s.c.listMode_ = false then
    let s := s.setC fun c => { c with currentStatus_ := none }
    let s := s.setC fun c => { c with timeSinceUpdate_ := 0 }
    let s := mpd_run_status s
    let s := CheckError rc s
    match s.c.currentStatus_ with
    | some st =>
      let version := st.queue_version
      let qVersion := u32 s.c.queueVersion_
      let s := applyStatus st s
      let s := songStep rc st s
      settleStatus ExpectUpdate version qVersion s
    | none => s
  else s

/-! ## Connection management -/

/-- Embeds `Client::GetVersion`. -/
def GetVersion (rc : Reconnector) (s : Sys) : Sys :=
  match s.c.connection_ with
  | some conn =>
    let version := conn.server_version
    let s := CheckError rc s
    match version with
    | some (major, minor, patch) =>
      s.setC fun c =>
        { c with versionMajor_ := (major : Int), versionMinor_ := (minor : Int),
                 versionPatch_ := (patch : Int) }
    | none => s
  | none => s

/-- Embeds `Client::Password`. -/
def Password (rc : Reconnector) (password : String) (s : Sys) : Sys :=
  if Connected s = true then
    let s := ClearCommand rc s
    libcall (.mpd_send_password password) s
  else Error .ClientNoConnection s

/-- Embeds `Client::CurrentState`, as the state it leaves; the string returned is `currentState_`. -/
def CurrentState (s : Sys) : Sys :=
  if Connected s = true then
    if s.c.currentStatus_.isSome then
      match s.c.state_ with
      | .MPD_STATE_UNKNOWN => s.setC fun c => { c with currentState_ := "Unknown" }
      | .MPD_STATE_STOP => s.setC fun c => { c with currentState_ := "Stopped" }
      | .MPD_STATE_PLAY => s.setC fun c => { c with currentState_ := "Playing" }
      | .MPD_STATE_PAUSE => s.setC fun c => { c with currentState_ := "Paused" }
    else s
  else s

/-- Embeds `Client::DisplaySongInformation`. -/
def DisplaySongInformation (s : Sys) : Sys :=
  let s1 := CurrentState s
  if Connected s = true ∧ s1.c.currentState_ ≠ "Stopped" then
    match s1.c.currentSong_, s1.c.currentStatus_ with
    | some song, some _ =>
      let duration := song.duration
      let elapsed := s1.c.elapsed_ % 4294967296
      let remain := if duration > elapsed then duration - elapsed else 0
      let artist := song.artist.getD "Unknown"
      let title := song.title.getD "Unknown"
      let s2 := uiCall (.SetStatusLine (s1.c.currentSongId_ + 1) artist title) s1
      if s2.w.TimeRemaining = false then
        uiCall (.MoveSetStatus ((s2.w.MaxColumns : Int) - 14)
          (SecondsToMinutes elapsed) (RemainingSeconds elapsed)
          (SecondsToMinutes duration) (RemainingSeconds duration)) s2
      else
        uiCall (.MoveSetStatus ((s2.w.MaxColumns : Int) - 15)
          (SecondsToMinutes remain) (RemainingSeconds remain)
          (SecondsToMinutes duration) (RemainingSeconds duration)) s2
    | _, _ => s1
  else uiCall .ClearStatusLine s1

/-- Lines 140 to 159 of `Connect`: the host to connect to and the password
to send once connected, from the argument and `MPD_HOST`. -/
def connectTarget (hostname : String) (host_env : Option String) : String × String :=
  if hostname.data.isEmpty then
    match host_env with
    | some env =>
      match find_last_of env.data '@' with
      | some pos => (String.mk (env.data.drop (pos + 1)), String.mk (env.data.take pos))
      | none => (env, "")
    | none => ("localhost", "")
  else (hostname, "")

/-- Lines 161 to 173 of `Connect`: the port to connect to, from the argument
and `MPD_PORT`; `connect_port` is a `uint16_t`. -/
def connectPort (port : Nat) (port_env : Option String) : Nat :=
  if port = 0 then
    match port_env with
    | some env => u16 (atoi env.data)
    | none => 0
  else port

/-- Embeds `connection_ = mpd_connection_new(host, port, 0)`. -/
def mpd_connection_new (host : String) (port : Nat) (s : Sys) : Sys :=
  let r := s.w.connectResults.headD (some { error := .success, server_version := none })
  let s := s.setW fun w =>
    { w with calls := w.calls ++ [.mpd_connection_new host port],
             connectResults := w.connectResults.tail }
  s.setC fun c => { c with connection_ := r }

/-- Modelled from the spec: `vimpc_->OnConnected()` of `vimpc.hpp`, which is not
among the sources; a notification to the user interface.  The error state in
which it leaves the connection is an input of the model. -/
def OnConnected (s : Sys) : Sys :=
  let s := uiCall .OnConnected s
  let s := setError (s.w.onConnectedResults.headD .success) s
  s.setW fun w => { w with onConnectedResults := w.onConnectedResults.tail }

/-- The body of `Client::Connect`; `rc` is the `Connect` that a `CheckError`
inside it calls for an automatic reconnect.  `UpdateStatus()` takes its
default argument, `ExpectUpdate_default`. -/
def ConnectBody (rc : Reconnector) (hostname : String) (port : Nat) (s : Sys) : Sys :=
  let s := DeleteConnection s
  let target := connectTarget hostname s.w.MPD_HOST
  let connect_hostname := target.1
  let connect_password := target.2
  let connect_port := connectPort port s.w.MPD_PORT
  let s := s.setC fun c => { c with currentState_ := "Connecting" }
  let s := uiCall .ModeRefresh s
  let s := s.setC fun c => { c with hostname_ := connect_hostname, port_ := connect_port }
  let s := mpd_connection_new connect_hostname connect_port s
  let s := CheckError rc s
  if Connected s = true then
    let s := s.setC fun c => { c with retried_ := false }
    let s := uiCall .ScreenUpdate s
    let s := DisplaySongInformation s
    let s := OnConnected s
    let s := GetVersion rc s
    let s := UpdateStatus rc ExpectUpdate_default s
    let s := uiCall .InvalidateAll s
    let s := uiCall (.Redraw .Library) s
    let s := uiCall (.Redraw .Playlist) s
    let s := if s.w.activeWindow ≠ .Library ∧ s.w.activeWindow ≠ .Playlist then
        uiCall (.Redraw s.w.activeWindow) s
      else s
    let s := UpdateStatus rc ExpectUpdate_default s
    if connect_password ≠ "" then Password rc connect_password s else s
  else s

/-- Embeds `Client::Connect`, with a bound on the depth of nested automatic
reconnects: `Connect (n + 1)` lets the `CheckError` calls inside it reconnect
through `Connect n`, and `Connect 0` only records that the bound was hit. -/
def Connect : Nat → Reconnector
  | 0 => fun _ _ s => s.setW fun w => { w with fuelOut := true }
  | n + 1 => ConnectBody (Connect n)

/-- Embeds `Client::Disconnect`. -/
def Disconnect (s : Sys) : Sys :=
  if Connected s = true then DeleteConnection s else s

/-- Embeds `Client::Reconnect`. -/
def Reconnect (rc : Reconnector) (s : Sys) : Sys :=
  let s := Disconnect s
  rc s.c.hostname_ s.c.port_ s

/-! ## Command batching -/

/-- Embeds `Client::StartCommandList`. -/
def StartCommandList (s : Sys) : Sys :=
  if Connected s = true then
    let s := s.setC fun c => { c with listMode_ := true }
    libcall .mpd_command_list_begin s
  else s

/-- Embeds `Client::SendCommandList`. -/
def SendCommandList (rc : Reconnector) (s : Sys) : Sys :=
  if Connected s = true then
    let s := libcall .mpd_command_list_end s
    let s := mpd_response_finish s
    let s := CheckError rc s
    let s := s.setC fun c => { c with listMode_ := false }
    UpdateStatus rc true s
  else s

/-- Embeds `CommandList::CommandList`. -/
def CommandList.open (rc : Reconnector) (condition : Bool) (s : Sys) : Sys :=
  if condition = true then StartCommandList (ClearCommand rc s) else s

/-- Embeds `CommandList::~CommandList`. -/
def CommandList.close (rc : Reconnector) (condition : Bool) (s : Sys) : Sys :=
  if condition = true then SendCommandList rc s else s

/-! ## Playback control and options -/

/-- Embeds `Client::Play`. -/
def Play (rc : Reconnector) (playId : Nat) (s : Sys) : Sys :=
  if Connected s = true then
    let s := ClearCommand rc s
    let s := libcall (.mpd_send_play_pos playId) s
    let s := s.setC fun c => { c with currentSongId_ := (playId : Int), state_ := .MPD_STATE_PLAY }
    UpdateStatus rc ExpectUpdate_default s
  else Error .ClientNoConnection s

/-- Embeds `Client::Pause`. -/
def Pause (rc : Reconnector) (s : Sys) : Sys :=
  if Connected s = true then
    let s := ClearCommand rc s
    let s := libcall .mpd_send_toggle_pause s
    if s.c.state_ = .MPD_STATE_PLAY then
      s.setC fun c => { c with state_ := .MPD_STATE_PAUSE }
    else if s.c.state_ = .MPD_STATE_PAUSE then
      s.setC fun c => { c with state_ := .MPD_STATE_PLAY }
    else s
  else Error .ClientNoConnection s

/-- Embeds `Client::Stop`. -/
def Stop (rc : Reconnector) (s : Sys) : Sys :=
  if Connected s = true then
    let s := ClearCommand rc s
    let s := libcall .mpd_send_stop s
    s.setC fun c =>
      { c with state_ := .MPD_STATE_STOP, currentSong_ := none, currentSongId_ := -1,
               currentSongURI_ := "" }
  else Error .ClientNoConnection s

/-- Embeds `Client::Next`. -/
def Next (rc : Reconnector) (s : Sys) : Sys :=
  if Connected s = true then
    let s := ClearCommand rc s
    let s := libcall .mpd_send_next s
    UpdateStatus rc ExpectUpdate_default s
  else Error .ClientNoConnection s

/-- Embeds `Client::Previous`. -/
def Previous (rc : Reconnector) (s : Sys) : Sys :=
  if Connected s = true then
    let s := ClearCommand rc s
    let s := libcall .mpd_send_previous s
    UpdateStatus rc ExpectUpdate_default s
  else Error .ClientNoConnection s

/-- Embeds `Client::Seek`. -/
def Seek (rc : Reconnector) (Offset : Int) (s : Sys) : Sys :=
  if Connected s = true then
    let s := ClearCommand rc s
    libcall (.mpd_send_seek_pos (u32 s.c.currentSongId_) (u32 ((s.c.elapsed_ : Int) + Offset))) s
  else Error .ClientNoConnection s

/-- Embeds `Client::SeekTo`. -/
def SeekTo (rc : Reconnector) (Time : Nat) (s : Sys) : Sys :=
  if Connected s = true then
    let s := ClearCommand rc s
    libcall (.mpd_send_seek_pos (u32 s.c.currentSongId_) Time) s
  else Error .ClientNoConnection s

/-- Embeds `Client::SetRandom`. -/
def SetRandom (rc : Reconnector) (random : Bool) (s : Sys) : Sys :=
  if Connected s = true then
    let s := ClearCommand rc s
    let s := libcall (.mpd_send_random random) s
    s.setC fun c => { c with random_ := random }
  else Error .ClientNoConnection s

/-- Embeds `Client::SetSingle`. -/
def SetSingle (rc : Reconnector) (single : Bool) (s : Sys) : Sys :=
  if Connected s = true then
    let s := ClearCommand rc s
    let s := libcall (.mpd_send_single single) s
    s.setC fun c => { c with single_ := single }
  else Error .ClientNoConnection s

/-- Embeds `Client::SetConsume`. -/
def SetConsume (rc : Reconnector) (consume : Bool) (s : Sys) : Sys :=
  if Connected s = true then
    let s := ClearCommand rc s
    let s := libcall (.mpd_send_consume consume) s
    s.setC fun c => { c with consume_ := consume }
  else Error .ClientNoConnection s

/-- Embeds `Client::SetRepeat`. -/
def SetRepeat (rc : Reconnector) (repeat_ : Bool) (s : Sys) : Sys :=
  if Connected s = true then
    let s := ClearCommand rc s
    let s := libcall (.mpd_send_repeat repeat_) s
    s.setC fun c => { c with repeat_ := repeat_ }
  else Error .ClientNoConnection s

/-- Embeds `Client::SetCrossfade(uint32_t)`. -/
def SetCrossfade (rc : Reconnector) (crossfade : Nat) (s : Sys) : Sys :=
  if Connected s = true then
    let s := ClearCommand rc s
    let s := libcall (.mpd_send_crossfade crossfade) s
    let s := s.setC fun c => { c with crossfade_ := decide (crossfade ≠ 0) }
    if s.c.crossfade_ = true then
      s.setC fun c => { c with crossfadeTime_ := crossfade }
    else s
  else Error .ClientNoConnection s

/-- Embeds `Client::SetCrossfade(bool)`. -/
def SetCrossfadeBool (rc : Reconnector) (crossfade : Bool) (s : Sys) : Sys :=
  if crossfade = true then SetCrossfade rc s.c.crossfadeTime_ s else SetCrossfade rc 0 s

/-- Embeds `Client::SetVolume`. -/
def SetVolume (rc : Reconnector) (volume : Nat) (s : Sys) : Sys :=
  if Connected s = true then
    let s := ClearCommand rc s
    let s := libcall (.mpd_send_set_volume volume) s
    s.setC fun c => { c with volume_ := (volume : Int) }
  else Error .ClientNoConnection s

/-- Embeds `Client::Shuffle`. -/
def Shuffle (rc : Reconnector) (s : Sys) : Sys :=
  if Connected s = true then
    let s := ClearCommand rc s
    let s := libcall .mpd_send_shuffle s
    UpdateStatus rc ExpectUpdate_default s
  else Error .ClientNoConnection s

/-- Embeds `Client::Move`. -/
def Move (rc : Reconnector) (position1 position2 : Nat) (s : Sys) : Sys :=
  if Connected s = true then
    let s := ClearCommand rc s
    let s := libcall (.mpd_send_move position1 position2) s
    UpdateStatus rc true s
  else Error .ClientNoConnection s

/-- Embeds `Client::Swap`. -/
def Swap (rc : Reconnector) (position1 position2 : Nat) (s : Sys) : Sys :=
  if Connected s = true then
    let s := ClearCommand rc s
    let s := libcall (.mpd_send_swap position1 position2) s
    UpdateStatus rc ExpectUpdate_default s
  else Error .ClientNoConnection s

/-! ## Stored playlists and outputs -/

/-- Embeds `Client::CreatePlaylist`. -/
def CreatePlaylist (rc : Reconnector) (name : String) (s : Sys) : Sys :=
  if Connected s = true then
    let s := ClearCommand rc s
    let s := libcall (.mpd_run_save name) s
    libcall (.mpd_run_playlist_clear name) s
  else Error .ClientNoConnection s

/-- Embeds `Client::SavePlaylist`. -/
def SavePlaylist (rc : Reconnector) (name : String) (s : Sys) : Sys :=
  if Connected s = true then
    let s := ClearCommand rc s
    libcall (.mpd_run_save name) s
  else Error .ClientNoConnection s

/-- Embeds `Client::Clear`. -/
def Clear (rc : Reconnector) (s : Sys) : Sys :=
  if Connected s = true then
    let s := ClearCommand rc s
    let s := libcall .mpd_send_clear s
    UpdateStatus rc true s
  else if Connected s = false then Error .ClientNoConnection s
  else s

/-- Embeds `Client::LoadPlaylist`. -/
def LoadPlaylist (rc : Reconnector) (name : String) (s : Sys) : Sys :=
  if Connected s = true then
    let s := Clear rc s
    let s := ClearCommand rc s
    let s := libcall (.mpd_run_load name) s
    UpdateStatus rc ExpectUpdate_default s
  else Error .ClientNoConnection s

/-- Embeds `Client::RemovePlaylist`. -/
def RemovePlaylist (rc : Reconnector) (name : String) (s : Sys) : Sys :=
  if Connected s = true then
    let s := ClearCommand rc s
    libcall (.mpd_run_rm name) s
  else Error .ClientNoConnection s

/-- Embeds `Client::AddToNamedPlaylist`. -/
def AddToNamedPlaylist (rc : Reconnector) (name : String) (song : Song) (s : Sys) : Sys :=
  if Connected s = true then
    let s := ClearCommand rc s
    libcall (.mpd_send_playlist_add name song.uri) s
  else Error .ClientNoConnection s

/-- Embeds `Client::EnableOutput`; the output is given by its `Id()`. -/
def EnableOutput (rc : Reconnector) (output : Nat) (s : Sys) : Sys :=
  if Connected s = true then
    let s := ClearCommand rc s
    libcall (.mpd_run_enable_output output) s
  else Error .ClientNoConnection s

/-- Embeds `Client::DisableOutput`; the output is given by its `Id()`. -/
def DisableOutput (rc : Reconnector) (output : Nat) (s : Sys) : Sys :=
  if Connected s = true then
    let s := ClearCommand rc s
    libcall (.mpd_run_disable_output output) s
  else Error .ClientNoConnection s

/-- Embeds `Client::SetOutput`. -/
def SetOutput (rc : Reconnector) (output : Nat) (enable : Bool) (s : Sys) : Sys :=
  if enable = true then EnableOutput rc output s else DisableOutput rc output s

/-! ## Queue mutation

The `Add` overloads return `TotalNumberOfSongs() - 1`; the embedding keeps
the state they leave. -/

/-- Embeds `Client::Add(Mpc::Song &)`. -/
def AddSong (rc : Reconnector) (song : Song) (s : Sys) : Sys :=
  if Connected s = true then
    let s := ClearCommand rc s
    let s := libcall (.mpd_send_add song.uri) s
    UpdateStatus rc true s
  else Error .ClientNoConnection s

/-- Embeds `Client::Add(Mpc::Song *)`; `none` is the NULL pointer. -/
def AddSongPtr (rc : Reconnector) (song : Option Song) (s : Sys) : Sys :=
  match song with
  | some sg => if Connected s = true then AddSong rc sg s else Error .ClientNoConnection s
  | none => if Connected s = false then Error .ClientNoConnection s else s

/-- Lines 697 to 703 of `Client::Add(Mpc::Song &, uint32_t)`: what the
operation does before it polls the status. -/
def AddAtSend (rc : Reconnector) (song : Song) (position : Nat) (s : Sys) : Sys :=
  let s := ClearCommand rc s
  let s := libcall (.mpd_send_add_id_to song.uri position) s
  if s.c.currentSongId_ > -1 ∧ position ≤ u32 s.c.currentSongId_ then
    s.setC fun c => { c with currentSongId_ := c.currentSongId_ + 1 }
  else s

/-- Embeds `Client::Add(Mpc::Song &, uint32_t)`. -/
def AddAt (rc : Reconnector) (song : Song) (position : Nat) (s : Sys) : Sys :=
  if Connected s = true then
    UpdateStatus rc true (AddAtSend rc song position s)
  else Error .ClientNoConnection s

/-- Embeds `Client::AddAllSongs`. -/
def AddAllSongs (rc : Reconnector) (s : Sys) : Sys :=
  if Connected s = true then
    let s := ClearCommand rc s
    libcall (.mpd_send_add "/") s
  else Error .ClientNoConnection s

/-- Embeds `Client::Add(std::string const &)`. -/
def AddURI (rc : Reconnector) (URI : String) (s : Sys) : Sys :=
  if Connected s = true then
    let s := ClearCommand rc s
    let s := libcall (.mpd_send_add URI) s
    UpdateStatus rc ExpectUpdate_default s
  else Error .ClientNoConnection s

/-- Lines 751 to 757 of `Client::Delete(uint32_t)`: what the operation does
before it polls the status. -/
def DeleteSend (rc : Reconnector) (position : Nat) (s : Sys) : Sys :=
  let s := ClearCommand rc s
  let s := libcall (.mpd_send_delete position) s
  if s.c.currentSongId_ > -1 ∧ position < u32 s.c.currentSongId_ then
    s.setC fun c => { c with currentSongId_ := c.currentSongId_ - 1 }
  else s

/-- Embeds `Client::Delete(uint32_t)`. -/
def Delete (rc : Reconnector) (position : Nat) (s : Sys) : Sys :=
  if Connected s = true ∧ TotalNumberOfSongs s > 0 then
    UpdateStatus rc true (DeleteSend rc position s)
  else if Connected s = false then Error .ClientNoConnection s
  else s

/-- The loop of `Client::Delete(uint32_t, uint32_t)`: `n` calls of `Delete(position)`. -/
def DeleteLoop (rc : Reconnector) (position : Nat) : Nat → Sys → Sys
  | 0, s => s
  | n + 1, s => DeleteLoop rc position n (Delete rc position s)

/-- Lines 783 to 798 of `Client::Delete(uint32_t, uint32_t)`: the native range
delete and its adjustment of the tracked index.  Both subtractions have a
`uint32_t` operand. -/
def DeleteRangeNative (rc : Reconnector) (position1 position2 : Nat) (s : Sys) : Sys :=
  let s := ClearCommand rc s
  let s := libcall (.mpd_send_delete_range position1 position2) s
  if s.c.currentSongId_ > -1 then
    let songId := u32 s.c.currentSongId_
    if position1 < songId ∧ position2 < songId then
      s.setC fun c =>
        { c with currentSongId_ := c.currentSongId_ - (subU32 position2 position1 : Int) }
    else if position1 ≤ songId ∧ position2 ≥ songId then
      s.setC fun c =>
        { c with currentSongId_ := c.currentSongId_ - (subU32 (u32 c.currentSongId_) position1 : Int) }
    else s
  else s

/-- Lines 772 to 799 of `Client::Delete(uint32_t, uint32_t)`, up to the point
where the `CommandList` scope is about to close: what the operation does
before any status poll.  `CommandList list(*this)` takes the default condition,
`true`. -/
def DeleteRangeSend (rc : Reconnector) (position1 position2 : Nat) (s : Sys) : Sys :=
  if s.c.versionMinor_ < 16 then
    DeleteLoop rc position1 (subU32 position2 position1) (CommandList.open rc condition_default s)
  else DeleteRangeNative rc position1 position2 s

/-- Embeds `Client::Delete(uint32_t, uint32_t)`. -/
def DeleteRange (rc : Reconnector) (position1 position2 : Nat) (s : Sys) : Sys :=
  if Connected s = true ∧ TotalNumberOfSongs s > 0 then
    let s1 := DeleteRangeSend rc position1 position2 s
    let s2 := if s.c.versionMinor_ < 16 then CommandList.close rc condition_default s1 else s1
    UpdateStatus rc true s2
  else if Connected s = false then Error .ClientNoConnection s
  else s

/-! ## Search, database, time -/

/-- Embeds `Client::SearchAny`. -/
def SearchAny (search : String) (exact : Bool) (s : Sys) : Sys :=
  if Connected s = true then
    let s := libcall (.mpd_search_db_songs exact) s
    libcall (.mpd_search_add_any_tag_constraint search) s
  else s

/-- Embeds `Client::SearchArtist`. -/
def SearchArtist (search : String) (exact : Bool) (s : Sys) : Sys :=
  if Connected s = true then
    let s := libcall (.mpd_search_db_songs exact) s
    libcall (.mpd_search_add_tag_constraint "MPD_TAG_ARTIST" search) s
  else s

/-- Embeds `Client::SearchGenre`. -/
def SearchGenre (search : String) (exact : Bool) (s : Sys) : Sys :=
  if Connected s = true then
    let s := libcall (.mpd_search_db_songs exact) s
    libcall (.mpd_search_add_tag_constraint "MPD_TAG_GENRE" search) s
  else s

/-- Embeds `Client::SearchAlbum`. -/
def SearchAlbum (search : String) (exact : Bool) (s : Sys) : Sys :=
  if Connected s = true then
    let s := libcall (.mpd_search_db_songs exact) s
    libcall (.mpd_search_add_tag_constraint "MPD_TAG_ALBUM" search) s
  else s

/-- Embeds `Client::SearchSong`. -/
def SearchSong (search : String) (exact : Bool) (s : Sys) : Sys :=
  if Connected s = true then
    let s := libcall (.mpd_search_db_songs exact) s
    libcall (.mpd_search_add_tag_constraint "MPD_TAG_TITLE" search) s
  else s

/-- Embeds `Client::Rescan`. -/
def Rescan (rc : Reconnector) (s : Sys) : Sys :=
  if Connected s = true then
    let s := ClearCommand rc s
    libcall (.mpd_send_rescan "/") s
  else Error .ClientNoConnection s

/-- Embeds `Client::Update`. -/
def Update (rc : Reconnector) (s : Sys) : Sys :=
  if Connected s = true then
    let s := ClearCommand rc s
    libcall (.mpd_send_update "/") s
  else Error .ClientNoConnection s

/-- Embeds `Client::IncrementTime`.  `REQUIRE(time >= 0)` is the caller's obligation;
`timeSinceUpdate_ / 1000` is the truncating division of C++. -/
def IncrementTime (rc : Reconnector) (time : Int) (s : Sys) : Sys :=
  let s := s.setC fun c =>
    { c with timeSinceUpdate_ := c.timeSinceUpdate_ + time,
             timeSinceSong_ := c.timeSinceSong_ + time }
  let s := if s.c.state_ = .MPD_STATE_PLAY then
      s.setC fun c =>
        { c with elapsed_ := ((c.mpdelapsed_ : Int) + Int.tdiv c.timeSinceUpdate_ 1000).toNat }
    else s
  match s.c.currentSong_ with
  | some song =>
    if s.c.elapsed_ > song.duration then
      let s := s.setC fun c => { c with elapsed_ := 0 }
      if s.c.timeSinceUpdate_ ≥ 1000 then UpdateStatus rc ExpectUpdate_default s else s
    else s
  | none => s

/-! ## The public commands as one type -/

/-- The public commands of the client, with their arguments. -/
inductive Command where
  | Play (playId : Nat)
  | Pause
  | Stop
  | Next
  | Previous
  | Seek (Offset : Int)
  | SeekTo (Time : Nat)
  | SetRandom (b : Bool)
  | SetSingle (b : Bool)
  | SetConsume (b : Bool)
  | SetRepeat (b : Bool)
  | SetCrossfadeBool (b : Bool)
  | SetCrossfade (seconds : Nat)
  | SetVolume (volume : Nat)
  | Shuffle
  | Move (p1 p2 : Nat)
  | Swap (p1 p2 : Nat)
  | CreatePlaylist (name : String)
  | SavePlaylist (name : String)
  | LoadPlaylist (name : String)
  | RemovePlaylist (name : String)
  | AddToNamedPlaylist (name : String) (song : Song)
  | SetOutput (output : Nat) (enable : Bool)
  | EnableOutput (output : Nat)
  | DisableOutput (output : Nat)
  | AddSongPtr (song : Option Song)
  | AddSong (song : Song)
  | AddAt (song : Song) (position : Nat)
  | AddAllSongs
  | AddURI (URI : String)
  | Delete (position : Nat)
  | DeleteRange (p1 p2 : Nat)
  | Clear
  | SearchAny (search : String) (exact : Bool)
  | SearchArtist (search : String) (exact : Bool)
  | SearchGenre (search : String) (exact : Bool)
  | SearchAlbum (search : String) (exact : Bool)
  | SearchSong (search : String) (exact : Bool)
  | Rescan
  | Update
  | Password (password : String)
deriving DecidableEq, Repr

/-- The member function a command stands for. -/
def Command.run (rc : Reconnector) : Command → Sys → Sys
  | .Play playId => Mpc.Play rc playId
  | .Pause => Mpc.Pause rc
  | .Stop => Mpc.Stop rc
  | .Next => Mpc.Next rc
  | .Previous => Mpc.Previous rc
  | .Seek Offset => Mpc.Seek rc Offset
  | .SeekTo Time => Mpc.SeekTo rc Time
  | .SetRandom b => Mpc.SetRandom rc b
  | .SetSingle b => Mpc.SetSingle rc b
  | .SetConsume b => Mpc.SetConsume rc b
  | .SetRepeat b => Mpc.SetRepeat rc b
  | .SetCrossfadeBool b => Mpc.SetCrossfadeBool rc b
  | .SetCrossfade seconds => Mpc.SetCrossfade rc seconds
  | .SetVolume volume => Mpc.SetVolume rc volume
  | .Shuffle => Mpc.Shuffle rc
  | .Move p1 p2 => Mpc.Move rc p1 p2
  | .Swap p1 p2 => Mpc.Swap rc p1 p2
  | .CreatePlaylist name => Mpc.CreatePlaylist rc name
  | .SavePlaylist name => Mpc.SavePlaylist rc name
  | .LoadPlaylist name => Mpc.LoadPlaylist rc name
  | .RemovePlaylist name => Mpc.RemovePlaylist rc name
  | .AddToNamedPlaylist name song => Mpc.AddToNamedPlaylist rc name song
  | .SetOutput output enable => Mpc.SetOutput rc output enable
  | .EnableOutput output => Mpc.EnableOutput rc output
  | .DisableOutput output => Mpc.DisableOutput rc output
  | .AddSongPtr song => Mpc.AddSongPtr rc song
  | .AddSong song => Mpc.AddSong rc song
  | .AddAt song position => Mpc.AddAt rc song position
  | .AddAllSongs => Mpc.AddAllSongs rc
  | .AddURI URI => Mpc.AddURI rc URI
  | .Delete position => Mpc.Delete rc position
  | .DeleteRange p1 p2 => Mpc.DeleteRange rc p1 p2
  | .Clear => Mpc.Clear rc
  | .SearchAny search exact => Mpc.SearchAny search exact
  | .SearchArtist search exact => Mpc.SearchArtist search exact
  | .SearchGenre search exact => Mpc.SearchGenre search exact
  | .SearchAlbum search exact => Mpc.SearchAlbum search exact
  | .SearchSong search exact => Mpc.SearchSong search exact
  | .Rescan => Mpc.Rescan rc
  | .Update => Mpc.Update rc
  | .Password password => Mpc.Password rc password

/-- The five search set-up commands. -/
def Command.isSearch : Command → Bool
  | .SearchAny _ _ => true
  | .SearchArtist _ _ => true
  | .SearchGenre _ _ => true
  | .SearchAlbum _ _ => true
  | .SearchSong _ _ => true
  | _ => false

/-! ## Getters, the position correction pass and runs of deletes -/

/-- Embeds `Client::Hostname`. -/
def Hostname (s : Sys) : String := s.c.hostname_

/-- Embeds `Client::Port`, which returns a `uint16_t`. -/
def Port (s : Sys) : Nat := u16 s.c.port_

/-- Embeds `Client::GetCurrentSongURI`. -/
def GetCurrentSongURI (s : Sys) : String := s.c.currentSongURI_

/-- Embeds `Client::GetCurrentSong`. -/
def GetCurrentSong (s : Sys) : Int := s.c.currentSongId_

/-- The two comparisons of a queue entry (`Mpc::Song`) with the cached song
(`mpd_song`) that `UpdateCurrentSongPosition` applies, `operator==` and
`operator!=`.  They are declared with `Mpc::Song`, outside `mpdclient.cpp`, and
are parameters of the embedding. -/
structure SongCompare where
  /-- Embeds `operator==`. -/
  eq : Song → MpdSong → Bool
  /-- Embeds `operator!=`. -/
  ne : Song → MpdSong → Bool

/-- The loop of `Client::UpdateCurrentSongPosition` from loop index `i`, with `n`
rows still to visit: the first `id = i + FirstLine()` that lies inside the queue
and whose entry equals the cached song; `none` when the loop ends without a
`break`. -/
def scanRows (cmp : SongCompare) (song : MpdSong) (q : List Song) (firstLine : Nat) :
    Nat → Nat → Option Nat
  | _, 0 => none
  | i, n + 1 =>
    let id := i + firstLine
    match q[id]? with
    | some entry =>
      if cmp.eq entry song = true then some id else scanRows cmp song q firstLine (i + 1) n
    | none => scanRows cmp song q firstLine (i + 1) n

/-- Embeds `Client::UpdateCurrentSongPosition`.  `Main::Playlist().Size()` is the
length of the mirrored queue and `Get(i)` its entry at `i`. -/
def UpdateCurrentSongPosition (cmp : SongCompare) (s : Sys) : Sys :=
  match s.c.currentSong_ with
  | some song =>
    if s.c.currentSongId_ ≥ 0 then
      match s.w.playlist[s.c.currentSongId_.toNat]? with
      | some entry =>
        if cmp.ne entry song = true then
          match scanRows cmp song s.w.playlist s.w.FirstLine 0 s.w.MaxRows with
          | some id => s.setC fun c => { c with currentSongId_ := (id : Int) }
          | none => s.setC fun c => { c with currentSongId_ := -1 }
        else s
      | none => s
    else s
  | none => s

/-- Embeds `Client::UpdateDisplay`. -/
def UpdateDisplay (cmp : SongCompare) (s : Sys) : Sys := UpdateCurrentSongPosition cmp s

/-- A run of `Delete(position)` calls, one for each listed position, in order. -/
def Deletes (rc : Reconnector) : List Nat → Sys → Sys
  | [], s => s
  | p :: ps, s => Deletes rc ps (Delete rc p s)

/-! ## Observations and reference behaviours

What the theorems below observe of a run, and the behaviours the
specification words, to be compared with the embedded code. -/

/-- The state after lines 1129 to 1141 of `UpdateStatus` when neither the drain
nor the status request meets an error and the daemon answers with `st`. -/
def polled (st : MpdStatus) (s : Sys) : Sys :=
  { c := { s.c with connection_ := s.c.connection_.map fun k => { k with error := .success },
                    currentStatus_ := some st, timeSinceUpdate_ := 0 },
    w := { s.w with calls := s.w.calls ++ [.mpd_response_finish, .mpd_run_status],
                    finishResults := s.w.finishResults.tail,
                    statusResults := s.w.statusResults.tail } }

/-- The queue-changes requests among the library calls issued, with the version each asked for. -/
def replayRequests (w : World) : List Nat :=
  w.calls.filterMap fun k =>
    match k with
    | .mpd_send_queue_changes_meta v => some v
    | _ => none

/-- The `mpd_connection_new` calls among a list of library calls. -/
def connectCalls (calls : List Call) : List Call :=
  calls.filter fun k =>
    match k with
    | .mpd_connection_new _ _ => true
    | _ => false

/-- The refresh test as the specification lists it: any of (a) the daemon state
differs from the recorded one, (b) the daemon is not stopped and no song is
cached, (c) a song is cached and the estimate is within 3 seconds of its
duration, (d) the daemon elapsed time went backwards, (e) the daemon elapsed
time is at most 3 seconds. -/
def refreshClaimed (c : Client) (st : MpdStatus) : Bool :=
  (c.mpdstate_ != st.state) ||
  ((st.state != .MPD_STATE_STOP) && c.currentSong_.isNone) ||
  (match c.currentSong_ with
   | some song => decide (song.duration ≤ c.elapsed_ + 3)
   | none => false) ||
  decide (st.elapsed_time < c.mpdelapsed_) ||
  decide (st.elapsed_time ≤ 3)

/-- The refresh test with (c), (d) and (e) all behind "a song is cached". -/
def refreshDue (c : Client) (st : MpdStatus) : Bool :=
  (c.mpdstate_ != st.state) ||
  ((st.state != .MPD_STATE_STOP) && c.currentSong_.isNone) ||
  (match c.currentSong_ with
   | some song =>
     decide (song.duration ≤ c.elapsed_ + 3) ||
     decide (st.elapsed_time < c.mpdelapsed_) ||
     decide (st.elapsed_time ≤ 3)
   | none => false)

/-- What one tick of the clock leaves, in the words of the specification: the
two counters, the estimate, and whether a status poll is forced. -/
structure Tick where
  sincePoll : Int
  sinceSong : Int
  estimate : Nat
  poll : Bool
deriving DecidableEq, Repr

/-- The reference behaviour of a tick of `deltaMs`: both counters grow by
`deltaMs`; while playing the estimate is the daemon elapsed time plus the whole
seconds since the last poll; an estimate beyond the cached song's duration is
set to 0, and then a poll is forced exactly when 1000ms have passed since the
last poll. -/
def tickSpec (c : Client) (deltaMs : Int) : Tick :=
  let sincePoll := c.timeSinceUpdate_ + deltaMs
  let sinceSong := c.timeSinceSong_ + deltaMs
  let estimate :=
    if c.state_ = .MPD_STATE_PLAY then c.mpdelapsed_ + (sincePoll / 1000).toNat else c.elapsed_
  let exceeded :=
    match c.currentSong_ with
    | some song => decide (estimate > song.duration)
    | none => false
  { sincePoll := sincePoll, sinceSong := sinceSong,
    estimate := if exceeded then 0 else estimate,
    poll := exceeded && decide (sincePoll ≥ 1000) }

/-- The reference behaviour of `IncrementTime`: the tick of `tickSpec`, followed
by the status poll when the tick forces one. -/
def IncrementTime_spec (rc : Reconnector) (deltaMs : Int) (s : Sys) : Sys :=
  let t := tickSpec s.c deltaMs
  let s1 := s.setC fun c =>
    { c with timeSinceUpdate_ := t.sincePoll, timeSinceSong_ := t.sinceSong, elapsed_ := t.estimate }
  if t.poll then UpdateStatus rc ExpectUpdate_default s1 else s1

/-- A sequence of `IncrementTime` calls, oldest first. -/
def IncrementTimes (rc : Reconnector) (ticks : List Int) (s : Sys) : Sys :=
  ticks.foldl (fun s t => IncrementTime rc t s) s

/-- The client with its two counters and its estimate replaced. -/
def withTimes (s : Sys) (sincePoll sinceSong : Int) (estimate : Nat) : Sys :=
  s.setC fun c =>
    { c with timeSinceUpdate_ := sincePoll, timeSinceSong_ := sinceSong, elapsed_ := estimate }

/-- A call of `Connect` or of `Disconnect`. -/
inductive LifeStep where
  | connect (hostname : String) (port : Nat)
  | disconnect
deriving DecidableEq, Repr

/-- One call, with `fuel` bounding the nested automatic reconnects. -/
def LifeStep.run (fuel : Nat) : LifeStep → Sys → Sys
  | .connect hostname port => Connect fuel hostname port
  | .disconnect => Disconnect

/-- A sequence of calls, oldest first. -/
def runSteps (fuel : Nat) (steps : List LifeStep) (s : Sys) : Sys :=
  steps.foldl (fun s step => step.run fuel s) s

/-- The disconnected values of volume, protocol version and queue version. -/
def sentinels (c : Client) : Bool :=
  decide (c.volume_ = -1) && decide (c.versionMajor_ = -1) && decide (c.versionMinor_ = -1) &&
  decide (c.versionPatch_ = -1) && decide (c.queueVersion_ = -1)

/-- The queue `q` has an entry at position `i`, and that entry equals the cached song. -/
def matchesAt (cmp : SongCompare) (song : MpdSong) (q : List Song) (i : Nat) : Bool :=
  match q[i]? with
  | some entry => cmp.eq entry song
  | none => false

/-- The state `s` as it is against a daemon of minor version `minor`. -/
def withMinor (minor : Int) (s : Sys) : Sys :=
  s.setC fun c => { c with versionMinor_ := minor }

/-- What `Connect` resolves its target from and into: the stored host and port
and the two environment variables. -/
def target (s : Sys) : String × Nat × Option String × Option String :=
  (s.c.hostname_, s.c.port_, s.w.MPD_HOST, s.w.MPD_PORT)

/-- The stored host and port resolve to themselves: a `Connect(hostname_, port_)`
from this state connects to `hostname_` and `port_` again. -/
def settled (s : Sys) : Bool :=
  decide ((connectTarget s.c.hostname_ s.w.MPD_HOST).1 = s.c.hostname_) &&
  decide (connectPort s.c.port_ s.w.MPD_PORT = s.c.port_)

/-- The state in which `SendCommandList` hands over to `UpdateStatus(true)` when
the response to the batch drains without error: the list end and the drain have
been issued and the client has left list mode. -/
def sentBatch (s : Sys) : Sys :=
  { c := { s.c with connection_ := s.c.connection_.map fun k => { k with error := .success },
                    listMode_ := false },
    w := { s.w with calls := s.w.calls ++ [.mpd_command_list_end, .mpd_response_finish],
                    finishResults := s.w.finishResults.tail } }

/-! ## Concrete states for the worked examples -/

/-- Surroundings in which nothing is configured and the daemon has nothing to say. -/
def World.quiet : World :=
  { Reconnect := false, TimeRemaining := false, MPD_HOST := none, MPD_PORT := none,
    connectResults := [], onConnectedResults := [], finishResults := [], statusResults := [],
    songResults := [], changeResults := [], playlist := [], MaxRows := 0, MaxColumns := 0,
    FirstLine := 0, activeWindow := .Library, calls := [], errors := [], ui := [],
    nullDeref := false, fuelOut := false }

/-- The freshly constructed client in quiet surroundings. -/
def Sys.fresh : Sys := { c := Client.new, w := World.quiet }

/-- A client that holds an error-free connection, in quiet surroundings. -/
def Sys.online : Sys :=
  { c := { Client.new with connection_ := some { error := .success, server_version := none } },
    w := World.quiet }

/-- A daemon status: stopped, empty queue, version 0. -/
def MpdStatus.zero : MpdStatus :=
  { queue_version := 0, queue_length := 0, volume := 50, random := false, repeat_ := false,
    single := false, consume := false, crossfade := 0, state := .MPD_STATE_STOP,
    elapsed_time := 0 }

/-- A song of the daemon with the given position, uri and duration. -/
def MpdSong.mk3 (pos : Nat) (uri : String) (duration : Nat) : MpdSong :=
  { pos := pos, uri := uri, duration := duration, artist := none, title := none,
    album := none, track := none }

/-- A mirrored queue of five entries. -/
def queue5 : List Song :=
  [ CreateSong (MpdSong.mk3 0 "a" 100), CreateSong (MpdSong.mk3 1 "b" 100),
    CreateSong (MpdSong.mk3 2 "c" 100), CreateSong (MpdSong.mk3 3 "d" 100),
    CreateSong (MpdSong.mk3 4 "e" 100) ]

/-- A connected client whose mirror has five entries at queue version 10, about
to be told queue version `v1` and length 4, the entry at position 1 being gone. -/
def c1State (v1 : Nat) : Sys :=
  { c := { Sys.online.c with queueVersion_ := 10 },
    w := { World.quiet with
      playlist := queue5,
      statusResults :=
        [(.success, some { MpdStatus.zero with queue_version := v1, queue_length := 4 })],
      changeResults :=
        [[MpdSong.mk3 1 "c" 100, MpdSong.mk3 2 "d" 100, MpdSong.mk3 3 "e" 100]] } }

/-- A connected client with tracked index `c`, a queue of 12 entries and a
daemon of minor version `minor`. -/
def c2State (c : Int) (minor : Int) : Sys :=
  { c := { Sys.online.c with currentSongId_ := c, versionMinor_ := minor,
                             currentStatus_ := some { MpdStatus.zero with queue_length := 12 } },
    w := World.quiet }

/-- An entry to add to the queue. -/
def someSong : Song := CreateSong (MpdSong.mk3 0 "song" 100)

/-- The status of a stopped daemon. -/
def c3Status : MpdStatus := { MpdStatus.zero with state := .MPD_STATE_STOP, elapsed_time := 0 }

/-- A client that has just asked the daemon to play (`state_` is already
`MPD_STATE_PLAY`), with no song cached, while the daemon stays stopped. -/
def c3State : Sys :=
  { c := { Sys.online.c with state_ := .MPD_STATE_PLAY, mpdstate_ := .MPD_STATE_STOP },
    w := { World.quiet with statusResults := [(.success, some c3Status)] } }

/-- A playing client with a cached song of 200 seconds and an estimate of 198. -/
def c3Song : Sys :=
  { c := { Sys.online.c with state_ := .MPD_STATE_PLAY, mpdstate_ := .MPD_STATE_PLAY,
                             currentSong_ := some (MpdSong.mk3 7 "x" 200), elapsed_ := 198,
                             mpdelapsed_ := 190 },
    w := { World.quiet with
      statusResults :=
        [(.success, some { MpdStatus.zero with state := .MPD_STATE_PLAY, elapsed_time := 198 })] } }

/-- A playing client with a cached song of 2 seconds, 1 second into it by its
own estimate, while the daemon reports 4 seconds. -/
def c3Short : Sys :=
  { c := { Sys.online.c with state_ := .MPD_STATE_PLAY, mpdstate_ := .MPD_STATE_PLAY,
                             currentSong_ := some (MpdSong.mk3 7 "x" 2), elapsed_ := 1,
                             mpdelapsed_ := 1 },
    w := { World.quiet with
      statusResults :=
        [(.success, some { MpdStatus.zero with state := .MPD_STATE_PLAY, elapsed_time := 4 })] } }

/-- A playing client whose last poll reported 30 seconds, with a cached song of
200 seconds. -/
def c4State : Sys :=
  { c := { Sys.online.c with state_ := .MPD_STATE_PLAY, mpdstate_ := .MPD_STATE_PLAY,
                             mpdelapsed_ := 30, elapsed_ := 30,
                             currentSong_ := some (MpdSong.mk3 0 "x" 200) },
    w := World.quiet }

/-- A connection without error, to a daemon of version 0.15.0. -/
def okConnection : Connection := { error := .success, server_version := some (0, 15, 0) }

/-- A client whose connection has just met a fatal error, with reconnect
enabled, and the answers the daemon will give to connects and status polls. -/
def c6State (connects : List (Option Connection))
    (statuses : List (ConnError × Option MpdStatus)) : Sys :=
  { c := { Client.new with connection_ := some { error := .fatal, server_version := none },
                           hostname_ := "daemon", port_ := 6600 },
    w := { World.quiet with Reconnect := true, connectResults := connects,
                            statusResults := statuses } }

/-- A connected client at queue version 10, about to be told queue version 5. -/
def c7State : Sys :=
  { c := { Sys.online.c with queueVersion_ := 10 },
    w := { World.quiet with
      statusResults :=
        [(.success, some { MpdStatus.zero with queue_version := 5, queue_length := 0 })] } }

/-- A connected, playing client that tracks the song at position 4 of its queue. -/
def c11State : Sys :=
  { c := { Sys.online.c with state_ := .MPD_STATE_PLAY, mpdstate_ := .MPD_STATE_PLAY,
                             currentSong_ := some (MpdSong.mk3 4 "e" 100),
                             currentSongId_ := 4, currentSongURI_ := "e",
                             currentStatus_ := some { MpdStatus.zero with queue_length := 5 } },
    w := { World.quiet with playlist := queue5 } }

/-- The same client once its connection has met a fatal error; the automatic
reconnect is switched off. -/
def c11Fatal : Sys :=
  { c11State with
    c := { c11State.c with connection_ := some { error := .fatal, server_version := none } } }

/-- A comparison for the worked examples: a queue entry equals a song of the
daemon when the two have the same URI. -/
def SongCompare.byURI : SongCompare :=
  { eq := fun a b => a.uri == b.uri, ne := fun a b => a.uri != b.uri }

/-- A connected client with a queue of five entries at queue version 10; the
daemon will answer the next status poll with version 11 and two entries. -/
def c12State : Sys :=
  { c := { Sys.online.c with
             queueVersion_ := 10,
             currentStatus_ := some { MpdStatus.zero with queue_version := 10, queue_length := 5 } },
    w := { World.quiet with
      playlist := queue5,
      statusResults :=
        [(.success, some { MpdStatus.zero with queue_version := 11, queue_length := 2 })] } }

/-- A client that caches the song "d" and tracks position `c` of a queue of five
entries, "d" being at position 3; the active window shows `rows` lines from line
`first` on. -/
def c13State (c : Int) (first rows : Nat) : Sys :=
  { c := { Sys.online.c with currentSong_ := some (MpdSong.mk3 3 "d" 100), currentSongId_ := c },
    w := { World.quiet with playlist := queue5, FirstLine := first, MaxRows := rows } }

/-- Surroundings with both environment variables set, the host variable
carrying a password. -/
def c14World : World :=
  { World.quiet with MPD_HOST := some "secret@example.org", MPD_PORT := some "6601" }

/-! # Theorems -/

/-! ## The error-free paths of the shared helpers -/

theorem CheckError_of_success (rc : Reconnector) (s : Sys) (conn : Connection)
    (h : s.c.connection_ = some conn) (he : conn.error = .success) : CheckError rc s = s := by
  simp [CheckError, h, he]

theorem headD_finish (l : List ConnError) (h : ∀ e ∈ l, e = .success) :
    l.headD .success = .success := by
  cases l <;> simp_all

theorem tail_finish (l : List ConnError) (h : ∀ e ∈ l, e = .success) :
    ∀ e ∈ l.tail, e = .success := fun e he => h e (List.mem_of_mem_tail he)

theorem headD_song (l : List (ConnError × Option MpdSong)) (h : ∀ r ∈ l, r.1 = .success) :
    (l.headD (.success, none)).1 = .success := by
  cases l <;> simp_all

theorem ClearCommand_ok (rc : Reconnector) (s : Sys) (conn : Connection)
    (hconn : s.c.connection_ = some conn) (hlist : s.c.listMode_ = false)
    (hfin : s.w.finishResults.headD .success = .success) :
    ClearCommand rc s =
      { c := { s.c with connection_ := some { conn with error := .success } },
        w := { s.w with calls := s.w.calls ++ [.mpd_response_finish],
                        finishResults := s.w.finishResults.tail } } := by
  have hfin2 := hfin
  simp only [List.headD_eq_head?_getD] at hfin2
  simp [ClearCommand, Connected, hconn, hlist, mpd_response_finish, libcall, setError,
    Sys.setC, Sys.setW, CheckError, hfin2]

theorem ClearCommand_listMode (rc : Reconnector) (s : Sys) (hlist : s.c.listMode_ = true) :
    ClearCommand rc s = s := by
  simp [ClearCommand, hlist]

theorem ClearCommand_frame (rc : Reconnector) (s : Sys) (conn : Connection)
    (hconn : s.c.connection_ = some conn)
    (hfin : s.w.finishResults.headD .success = .success) :
    (ClearCommand rc s).c.connection_.isSome = true ∧
    (ClearCommand rc s).c.currentSongId_ = s.c.currentSongId_ ∧
    (ClearCommand rc s).c.listMode_ = s.c.listMode_ ∧
    (ClearCommand rc s).c.currentStatus_ = s.c.currentStatus_ ∧
    (ClearCommand rc s).c.versionMinor_ = s.c.versionMinor_ := by
  have hfin2 := hfin
  simp only [List.headD_eq_head?_getD] at hfin2
  by_cases hl : s.c.listMode_ = false
  · simp [ClearCommand, Connected, hconn, hl, mpd_response_finish, libcall, setError,
      Sys.setC, Sys.setW, CheckError, hfin2]
  · simp [ClearCommand, hl, hconn]

theorem UpdateCurrentSong_frame (rc : Reconnector) (s : Sys) (conn : Connection)
    (hconn : s.c.connection_ = some conn)
    (hfin : s.w.finishResults.headD .success = .success)
    (hsong : (s.w.songResults.headD (.success, none)).1 = .success) :
    (UpdateCurrentSong rc s).c.connection_.isSome = true ∧
    (UpdateCurrentSong rc s).c.listMode_ = s.c.listMode_ ∧
    (UpdateCurrentSong rc s).c.currentStatus_ = s.c.currentStatus_ ∧
    (UpdateCurrentSong rc s).c.queueVersion_ = s.c.queueVersion_ ∧
    (UpdateCurrentSong rc s).w.playlist = s.w.playlist ∧
    (UpdateCurrentSong rc s).w.changeResults = s.w.changeResults ∧
    replayRequests (UpdateCurrentSong rc s).w = replayRequests s.w := by
  unfold UpdateCurrentSong
  simp only [Connected, hconn, Option.isSome_some, if_true]
  by_cases hl : s.c.listMode_ = false
  · have hfin2 := hfin
    have hsong2 := hsong
    simp only [List.headD_eq_head?_getD] at hfin2 hsong2
    simp only [hl, if_true]
    split_ifs with h1 h2 <;>
      simp [ClearCommand, Connected, hconn, hl, mpd_response_finish, libcall, setError,
        Sys.setC, Sys.setW, CheckError, hfin2, hsong2, mpd_run_current_song, replayRequests,
        List.filterMap_append]
    all_goals (split <;> simp)
  · simp [hl, hconn]

theorem UpdateStatus_eq (rc : Reconnector) (e : Bool) (s : Sys) (conn : Connection)
    (st : MpdStatus) (rest : List (ConnError × Option MpdStatus))
    (hconn : s.c.connection_ = some conn) (hlist : s.c.listMode_ = false)
    (hfin : s.w.finishResults.headD .success = .success)
    (hst : s.w.statusResults = (.success, some st) :: rest) :
    UpdateStatus rc e s =
      settleStatus e st.queue_version (u32 s.c.queueVersion_)
        (songStep rc st (applyStatus st (polled st s))) := by
  unfold UpdateStatus
  rw [ClearCommand_ok rc s conn hconn hlist hfin]
  simp [Connected, hlist, mpd_run_status, Sys.setC, Sys.setW, libcall, setError, hst,
    CheckError, polled, hconn]

theorem applyStatus_c (st : MpdStatus) (s : Sys) :
    (applyStatus st s).w = s.w ∧
    (applyStatus st s).c.connection_ = s.c.connection_ ∧
    (applyStatus st s).c.listMode_ = s.c.listMode_ ∧
    (applyStatus st s).c.currentStatus_ = s.c.currentStatus_ ∧
    (applyStatus st s).c.queueVersion_ = s.c.queueVersion_ ∧
    (applyStatus st s).c.currentSong_ = s.c.currentSong_ ∧
    (applyStatus st s).c.mpdstate_ = s.c.mpdstate_ ∧
    (applyStatus st s).c.elapsed_ = s.c.elapsed_ ∧
    (applyStatus st s).c.mpdelapsed_ = s.c.mpdelapsed_ ∧
    (applyStatus st s).c.state_ = s.c.state_ := by
  unfold applyStatus
  simp only [Sys.setC]
  split <;> simp

theorem songStep_frame (rc : Reconnector) (st : MpdStatus) (s : Sys) (conn : Connection)
    (hconn : s.c.connection_ = some conn)
    (hfin : s.w.finishResults.headD .success = .success)
    (hsong : (s.w.songResults.headD (.success, none)).1 = .success) :
    (songStep rc st s).c.connection_.isSome = true ∧
    (songStep rc st s).c.listMode_ = s.c.listMode_ ∧
    (songStep rc st s).c.currentStatus_ = s.c.currentStatus_ ∧
    (songStep rc st s).c.queueVersion_ = s.c.queueVersion_ ∧
    (songStep rc st s).w.playlist = s.w.playlist ∧
    (songStep rc st s).w.changeResults = s.w.changeResults ∧
    replayRequests (songStep rc st s).w = replayRequests s.w := by
  unfold songStep
  split
  · exact UpdateCurrentSong_frame rc s conn hconn hfin hsong
  · simp [hconn]

theorem polled_frame (st : MpdStatus) (s : Sys) (conn : Connection)
    (hconn : s.c.connection_ = some conn) :
    (polled st s).c.connection_ = some { conn with error := .success } ∧
    (polled st s).c.currentStatus_ = some st ∧
    (polled st s).c.queueVersion_ = s.c.queueVersion_ ∧
    (polled st s).w.playlist = s.w.playlist ∧
    (polled st s).w.changeResults = s.w.changeResults ∧
    (polled st s).w.finishResults = s.w.finishResults.tail ∧
    (polled st s).w.songResults = s.w.songResults ∧
    replayRequests (polled st s).w = replayRequests s.w := by
  simp [polled, hconn, replayRequests, List.filterMap_append]

/-! ## Machine integers -/

theorem u32_of_nonneg (c : Int) (h0 : 0 ≤ c) (h1 : c < 4294967296) : (u32 c : Int) = c := by
  unfold u32; omega

theorem subU32_of_le (a b : Nat) (h : b ≤ a) (ha : a < 4294967296) : subU32 a b = a - b := by
  unfold subU32; omega

/-! ## The replay decision -/

theorem needReplay_iff (v0 : Int) (v1 : Nat) (e : Bool)
    (h0 : -1 ≤ v0) (h1 : v0 < 2147483648) :
    needReplay v0 v1 (u32 v0) e = true ↔
      (v0 ≠ -1 ∧ ((v1 : Int) > v0 + 1 ∨ ((v1 : Int) > v0 ∧ e = false))) := by
  simp only [needReplay, u32, addU32, Bool.and_eq_true, Bool.or_eq_true, decide_eq_true_eq,
    beq_iff_eq]
  constructor
  · rintro ⟨h, h'⟩
    have : ((v0 % 4294967296).toNat : Int) = v0 := by omega
    refine ⟨by omega, ?_⟩
    rcases h' with h' | ⟨h', he⟩
    · left; omega
    · right; exact ⟨by omega, he⟩
  · rintro ⟨h, h'⟩
    have : ((v0 % 4294967296).toNat : Int) = v0 := by omega
    refine ⟨by omega, ?_⟩
    rcases h' with h' | ⟨h', he⟩
    · left; omega
    · right; exact ⟨by omega, he⟩

theorem needReplay_backward (v0 : Int) (v1 : Nat) (e : Bool)
    (h0 : -1 ≤ v0) (h1 : v0 < 2147483648) (hle : (v1 : Int) ≤ v0) :
    needReplay v0 v1 (u32 v0) e = false := by
  have := needReplay_iff v0 v1 e h0 h1
  cases hn : needReplay v0 v1 (u32 v0) e with
  | false => rfl
  | true =>
    obtain ⟨-, h | ⟨h, -⟩⟩ := this.mp hn <;> omega

theorem settleStatus_replay (e : Bool) (v1 qv : Nat) (mid : Sys) (st : MpdStatus)
    (hc : mid.c.connection_.isSome = true) (hs : mid.c.currentStatus_ = some st) :
    (settleStatus e v1 qv mid).c.queueVersion_ = (v1 : Int) ∧
    (settleStatus e v1 qv mid).w.playlist =
      (if needReplay mid.c.queueVersion_ v1 qv e = true then
        Crop st.queue_length (replay (mid.w.changeResults.headD []) mid.w.playlist)
       else mid.w.playlist) ∧
    replayRequests (settleStatus e v1 qv mid).w =
      replayRequests mid.w ++
        (if needReplay mid.c.queueVersion_ v1 qv e = true then [qv] else []) := by
  obtain ⟨conn, hconn⟩ := Option.isSome_iff_exists.mp hc
  unfold settleStatus
  simp only [hs, reconcile, Sys.setC, Sys.setW]
  split <;>
    simp_all [ForEachQueuedSongChanges, Connected, libcall, Sys.setW, TotalNumberOfSongs,
      replayRequests, List.filterMap_append]

theorem UpdateStatus_settled (rc : Reconnector) (e : Bool) (s : Sys)
    (conn : Connection) (st : MpdStatus) (rest : List (ConnError × Option MpdStatus))
    (hconn : s.c.connection_ = some conn) (hlist : s.c.listMode_ = false)
    (hfin : ∀ x ∈ s.w.finishResults, x = .success)
    (hsong : ∀ r ∈ s.w.songResults, r.1 = .success)
    (hst : s.w.statusResults = (.success, some st) :: rest) :
    (UpdateStatus rc e s).c.queueVersion_ = (st.queue_version : Int) ∧
    (UpdateStatus rc e s).w.playlist =
      (if needReplay s.c.queueVersion_ st.queue_version (u32 s.c.queueVersion_) e = true then
        Crop st.queue_length (replay (s.w.changeResults.headD []) s.w.playlist)
       else s.w.playlist) ∧
    replayRequests (UpdateStatus rc e s).w =
      replayRequests s.w ++
        (if needReplay s.c.queueVersion_ st.queue_version (u32 s.c.queueVersion_) e = true then
          [u32 s.c.queueVersion_] else []) := by
  have h1 := headD_finish _ hfin
  have h2 := headD_finish _ (tail_finish _ hfin)
  have h3 := headD_song _ hsong
  obtain ⟨p1, p2, p3, p4, p5, p6, p7, p8⟩ := polled_frame st s conn hconn
  obtain ⟨a1, a2, a3, a4, a5, -⟩ := applyStatus_c st (polled st s)
  obtain ⟨g1, -, g3, g4, g5, g6, g7⟩ :=
    songStep_frame rc st (applyStatus st (polled st s)) _ (a2.trans p1)
      (by rw [a1, p6]; exact h2) (by rw [a1, p7]; exact h3)
  rw [a4, p2] at g3
  rw [a5, p3] at g4
  rw [a1, p4] at g5
  rw [a1, p5] at g6
  rw [a1, p8] at g7
  obtain ⟨r1, r2, r3⟩ := settleStatus_replay e st.queue_version (u32 s.c.queueVersion_)
    _ st g1 g3
  rw [g4, g5, g6] at r2
  rw [g4, g7] at r3
  rw [UpdateStatus_eq rc e s conn st rest hconn hlist h1 hst]
  exact ⟨r1, r2, r3⟩

/-- Claim C1.  A connected client that is not batching receives, without
protocol error, a daemon status with queue version `v1` while its baseline is
`v0` (the sentinel -1 or a daemon-assigned version that fits 31 bits).  Then
`UpdateStatus(expectUpdate)` replays the entries changed since `v0` into the
mirrored queue and truncates the mirror to the daemon-reported length if and
only if `v0 ≠ -1` and (`v1 > v0 + 1` or (`v1 > v0` and `expectUpdate` is
false)): the mirror afterwards is the truncated replay in that case and is
untouched otherwise, and one queue-changes request for `v0` is issued in that
case and none otherwise.  In particular `v1 = v0 + 1` with `expectUpdate` true
performs no replay. -/
theorem UpdateStatus_replays_iff (rc : Reconnector) (expectUpdate : Bool) (s : Sys)
    (conn : Connection) (st : MpdStatus) (rest : List (ConnError × Option MpdStatus))
    (hconn : s.c.connection_ = some conn) (hlist : s.c.listMode_ = false)
    (hfin : ∀ x ∈ s.w.finishResults, x = .success)
    (hsong : ∀ r ∈ s.w.songResults, r.1 = .success)
    (hst : s.w.statusResults = (.success, some st) :: rest)
    (hv0 : -1 ≤ s.c.queueVersion_) (hv0' : s.c.queueVersion_ < 2147483648) :
    ((UpdateStatus rc expectUpdate s).w.playlist =
      if s.c.queueVersion_ ≠ -1 ∧
          ((st.queue_version : Int) > s.c.queueVersion_ + 1 ∨
           ((st.queue_version : Int) > s.c.queueVersion_ ∧ expectUpdate = false)) then
        Crop st.queue_length (replay (s.w.changeResults.headD []) s.w.playlist)
      else s.w.playlist) ∧
    (replayRequests (UpdateStatus rc expectUpdate s).w =
      replayRequests s.w ++
        if s.c.queueVersion_ ≠ -1 ∧
            ((st.queue_version : Int) > s.c.queueVersion_ + 1 ∨
             ((st.queue_version : Int) > s.c.queueVersion_ ∧ expectUpdate = false)) then
          [u32 s.c.queueVersion_]
        else []) ∧
    ((st.queue_version : Int) = s.c.queueVersion_ + 1 → expectUpdate = true →
      (UpdateStatus rc expectUpdate s).w.playlist = s.w.playlist ∧
      replayRequests (UpdateStatus rc expectUpdate s).w = replayRequests s.w) := by
  obtain ⟨-, r2, r3⟩ :=
    UpdateStatus_settled rc expectUpdate s conn st rest hconn hlist hfin hsong hst
  have hiff := needReplay_iff s.c.queueVersion_ st.queue_version expectUpdate hv0 hv0'
  refine ⟨?_, ?_, ?_⟩
  · rw [r2]; simp only [hiff]
  · rw [r3]; simp only [hiff]
  · intro hv he
    have hno : ¬ (needReplay s.c.queueVersion_ st.queue_version (u32 s.c.queueVersion_)
        expectUpdate = true) := by
      rw [hiff]; rintro ⟨-, h | ⟨-, h⟩⟩
      · omega
      · rw [he] at h; exact Bool.noConfusion h
    rw [r2, r3]; simp [hno]

/-- Worked example, a mirror of length 5 at baseline 10: version 11 with
`expectUpdate` true leaves the mirror alone and requests nothing; version 12
replays from 10 and truncates to the reported length 4. -/
theorem UpdateStatus_replays_iff_witness :
    ((UpdateStatus (Connect 1) true (c1State 11)).w.playlist = queue5 ∧
      replayRequests (UpdateStatus (Connect 1) true (c1State 11)).w = []) ∧
    ((UpdateStatus (Connect 1) true (c1State 12)).w.playlist =
        Crop 4 (replay [MpdSong.mk3 1 "c" 100, MpdSong.mk3 2 "d" 100, MpdSong.mk3 3 "e" 100]
          queue5) ∧
      replayRequests (UpdateStatus (Connect 1) true (c1State 12)).w = [10]) := by
  have h11 := UpdateStatus_replays_iff (Connect 1) true (c1State 11) _ _ _ rfl rfl
    (by decide) (by decide) rfl (by decide) (by decide)
  have h12 := UpdateStatus_replays_iff (Connect 1) true (c1State 12) _ _ _ rfl rfl
    (by decide) (by decide) rfl (by decide) (by decide)
  exact ⟨h11.2.2 (by decide) rfl, by simpa [c1State] using h12.1,
    by simpa [c1State] using h12.2.1⟩

/-! ## The tracked current-song index -/

theorem AddAtSend_index (rc : Reconnector) (song : Song) (p : Nat) (s : Sys) (conn : Connection)
    (hconn : s.c.connection_ = some conn)
    (hfin : s.w.finishResults.headD .success = .success)
    (h0 : 0 ≤ s.c.currentSongId_) (h1 : s.c.currentSongId_ < 2147483648) :
    (AddAtSend rc song p s).c.currentSongId_ =
      if (p : Int) ≤ s.c.currentSongId_ then s.c.currentSongId_ + 1 else s.c.currentSongId_ := by
  obtain ⟨f1, f2, -⟩ := ClearCommand_frame rc s conn hconn hfin
  obtain ⟨k, hk⟩ := Option.isSome_iff_exists.mp f1
  have hu := u32_of_nonneg s.c.currentSongId_ h0 (by omega)
  have hgt : -1 < s.c.currentSongId_ := by omega
  unfold AddAtSend
  generalize ClearCommand rc s = t at f1 f2 hk
  have : (p ≤ u32 s.c.currentSongId_) ↔ ((p : Int) ≤ s.c.currentSongId_) := by omega
  by_cases hp : (p : Int) ≤ s.c.currentSongId_
  · have hp2 := this.mpr hp
    simp [libcall, hk, Sys.setW, Sys.setC, f2, hp, hp2, hgt]
  · have hp2 := mt this.mp hp
    simp [libcall, hk, Sys.setW, Sys.setC, f2, hp, hp2, hgt]

theorem DeleteSend_index (rc : Reconnector) (p : Nat) (s : Sys) (conn : Connection)
    (hconn : s.c.connection_ = some conn)
    (hfin : s.w.finishResults.headD .success = .success)
    (h0 : 0 ≤ s.c.currentSongId_) (h1 : s.c.currentSongId_ < 2147483648) :
    (DeleteSend rc p s).c.currentSongId_ =
      if (p : Int) < s.c.currentSongId_ then s.c.currentSongId_ - 1 else s.c.currentSongId_ := by
  obtain ⟨f1, f2, -⟩ := ClearCommand_frame rc s conn hconn hfin
  obtain ⟨k, hk⟩ := Option.isSome_iff_exists.mp f1
  have hu := u32_of_nonneg s.c.currentSongId_ h0 (by omega)
  have hgt : -1 < s.c.currentSongId_ := by omega
  unfold DeleteSend
  generalize ClearCommand rc s = t at f1 f2 hk
  have : (p < u32 s.c.currentSongId_) ↔ ((p : Int) < s.c.currentSongId_) := by omega
  by_cases hp : (p : Int) < s.c.currentSongId_
  · have hp2 := this.mpr hp
    simp [libcall, hk, Sys.setW, Sys.setC, f2, hp, hp2, hgt]
  · have hp2 := mt this.mp hp
    simp [libcall, hk, Sys.setW, Sys.setC, f2, hp, hp2, hgt]

theorem DeleteRangeNative_index (rc : Reconnector) (p1 p2 : Nat) (s : Sys) (conn : Connection)
    (hconn : s.c.connection_ = some conn)
    (hfin : s.w.finishResults.headD .success = .success)
    (h0 : 0 ≤ s.c.currentSongId_) (h1 : s.c.currentSongId_ < 2147483648) :
    (p1 ≤ p2 → (p2 : Int) < s.c.currentSongId_ →
      (DeleteRangeNative rc p1 p2 s).c.currentSongId_ = s.c.currentSongId_ - ((p2 : Int) - p1)) ∧
    ((p1 : Int) ≤ s.c.currentSongId_ → s.c.currentSongId_ ≤ p2 →
      (DeleteRangeNative rc p1 p2 s).c.currentSongId_ = p1) := by
  obtain ⟨f1, f2, -⟩ := ClearCommand_frame rc s conn hconn hfin
  obtain ⟨k, hk⟩ := Option.isSome_iff_exists.mp f1
  have hu := u32_of_nonneg s.c.currentSongId_ h0 (by omega)
  have hgt : -1 < s.c.currentSongId_ := by omega
  unfold DeleteRangeNative
  generalize ClearCommand rc s = t at f1 f2 hk
  constructor
  · intro h12 h2c
    have c1 : p1 < u32 s.c.currentSongId_ ∧ p2 < u32 s.c.currentSongId_ := by omega
    have hs := subU32_of_le p2 p1 h12 (by omega)
    simp [libcall, hk, Sys.setW, Sys.setC, f2, hgt, c1, hs]
    omega
  · intro h1c hc2
    have c1 : ¬ (p1 < u32 s.c.currentSongId_ ∧ p2 < u32 s.c.currentSongId_) := by omega
    have c2 : p1 ≤ u32 s.c.currentSongId_ ∧ p2 ≥ u32 s.c.currentSongId_ := by omega
    have hs := subU32_of_le (u32 s.c.currentSongId_) p1 c2.1 (by omega)
    simp only [libcall, hk, Sys.setW, Sys.setC, f2, hgt, gt_iff_lt, if_true, if_neg c1,
      if_pos c2, hs]
    omega

theorem Delete_listMode (rc : Reconnector) (p : Nat) (t : Sys) (k : Connection)
    (hk : t.c.connection_ = some k) (hl : t.c.listMode_ = true)
    (hn : 0 < TotalNumberOfSongs t) :
    (Delete rc p t).c.connection_ = some k ∧ (Delete rc p t).c.listMode_ = true ∧
    (Delete rc p t).c.currentStatus_ = t.c.currentStatus_ ∧
    (Delete rc p t).c.currentSongId_ =
      (if t.c.currentSongId_ > -1 ∧ p < u32 t.c.currentSongId_ then t.c.currentSongId_ - 1
       else t.c.currentSongId_) := by
  unfold Delete DeleteSend
  simp only [Connected, hk, Option.isSome_some, hn, gt_iff_lt, and_self, if_true,
    ClearCommand_listMode rc t hl, libcall, Sys.setW, Sys.setC]
  split <;> simp [UpdateStatus, ClearCommand, hl, Connected, hk]

theorem TotalNumberOfSongs_congr (s t : Sys)
    (h1 : s.c.connection_.isSome = t.c.connection_.isSome)
    (h2 : s.c.currentStatus_ = t.c.currentStatus_) :
    TotalNumberOfSongs s = TotalNumberOfSongs t := by
  unfold TotalNumberOfSongs
  rw [h2]
  cases hs : s.c.connection_ <;> cases ht : t.c.connection_ <;>
    cases hq : t.c.currentStatus_ <;> simp_all

theorem DeleteLoop_index (rc : Reconnector) (p : Nat) :
    ∀ (n : Nat) (t : Sys) (k : Connection), t.c.connection_ = some k → t.c.listMode_ = true →
      0 < TotalNumberOfSongs t → -1 ≤ t.c.currentSongId_ → t.c.currentSongId_ < 2147483648 →
      (DeleteLoop rc p n t).c.currentSongId_ =
        if (p : Int) < t.c.currentSongId_ then max (t.c.currentSongId_ - n) p
        else t.c.currentSongId_ := by
  intro n
  induction n with
  | zero => intro t k _ _ _ _ _; simp [DeleteLoop]; omega
  | succ n ih =>
    intro t k hk hl hn h0 h1
    obtain ⟨d1, d2, d3, d4⟩ := Delete_listMode rc p t k hk hl hn
    have hn2 : 0 < TotalNumberOfSongs (Delete rc p t) := by
      rw [TotalNumberOfSongs_congr (Delete rc p t) t (by rw [d1, hk]) d3]; exact hn
    have hcond : (t.c.currentSongId_ > -1 ∧ p < u32 t.c.currentSongId_) ↔
        ((p : Int) < t.c.currentSongId_) := by
      constructor
      · rintro ⟨a, b⟩
        have := u32_of_nonneg t.c.currentSongId_ (by omega) (by omega)
        omega
      · intro a
        have := u32_of_nonneg t.c.currentSongId_ (by omega) (by omega)
        exact ⟨by omega, by omega⟩
    simp only [hcond] at d4
    have := ih (Delete rc p t) k d1 d2 hn2 (by rw [d4]; split <;> omega)
      (by rw [d4]; split <;> omega)
    simp only [DeleteLoop]
    rw [this, d4]
    by_cases hp : (p : Int) < t.c.currentSongId_
    · simp only [hp, if_true]
      split <;> (push_cast; omega)
    · simp [hp]

theorem CommandList_open_frame (rc : Reconnector) (s : Sys) (conn : Connection)
    (hconn : s.c.connection_ = some conn)
    (hfin : s.w.finishResults.headD .success = .success) :
    (CommandList.open rc true s).c.connection_.isSome = true ∧
    (CommandList.open rc true s).c.listMode_ = true ∧
    (CommandList.open rc true s).c.currentStatus_ = s.c.currentStatus_ ∧
    (CommandList.open rc true s).c.currentSongId_ = s.c.currentSongId_ := by
  obtain ⟨f1, f2, -, f4, -⟩ := ClearCommand_frame rc s conn hconn hfin
  obtain ⟨k, hk⟩ := Option.isSome_iff_exists.mp f1
  unfold CommandList.open StartCommandList
  generalize ClearCommand rc s = t at f1 f2 f4 hk
  simp [Connected, hk, libcall, Sys.setC, Sys.setW, f2, f4]

theorem DeleteRangeSend_index (rc : Reconnector) (p1 p2 : Nat) (s : Sys) (conn : Connection)
    (hconn : s.c.connection_ = some conn)
    (hfin : s.w.finishResults.headD .success = .success)
    (hn : 0 < TotalNumberOfSongs s)
    (h0 : 0 ≤ s.c.currentSongId_) (h1 : s.c.currentSongId_ < 2147483648) :
    (p1 ≤ p2 → (p2 : Int) < s.c.currentSongId_ →
      (DeleteRangeSend rc p1 p2 s).c.currentSongId_ = s.c.currentSongId_ - ((p2 : Int) - p1)) ∧
    (p2 < 4294967296 → (p1 : Int) ≤ s.c.currentSongId_ → s.c.currentSongId_ ≤ p2 →
      (DeleteRangeSend rc p1 p2 s).c.currentSongId_ = p1) := by
  unfold DeleteRangeSend
  split
  · obtain ⟨o1, o2, o3, o4⟩ := CommandList_open_frame rc s conn hconn hfin
    obtain ⟨k, hk⟩ := Option.isSome_iff_exists.mp o1
    have hn2 : 0 < TotalNumberOfSongs (CommandList.open rc true s) := by
      rw [TotalNumberOfSongs_congr _ s (by rw [o1, hconn]; rfl) o3]; exact hn
    have hloop := fun n => DeleteLoop_index rc p1 n (CommandList.open rc true s) k hk o2 hn2
      (by rw [o4]; omega) (by rw [o4]; omega)
    constructor
    · intro h12 h2c
      rw [hloop, o4, subU32_of_le p2 p1 h12 (by omega)]
      have : (p1 : Int) < s.c.currentSongId_ := by omega
      simp only [this, if_true]
      push_cast [h12]
      omega
    · intro hp2 h1c hc2
      have h12 : p1 ≤ p2 := by omega
      rw [hloop, o4, subU32_of_le p2 p1 h12 hp2]
      split
      · push_cast [h12]; omega
      · omega
  · obtain ⟨n1, n2⟩ := DeleteRangeNative_index rc p1 p2 s conn hconn hfin h0 h1
    exact ⟨n1, fun _ => n2⟩

/-- Claim C2.  For a connected client whose pending response drains without
error and whose tracked index is `c ≥ 0`, each operation hands to its status
poll a state in which the tracked index is already adjusted: `Add(song, p)`
gives `c + 1` if `p ≤ c` and `c` otherwise; with a non-empty queue, `Delete(p)`
gives `c - 1` if `p < c` and `c` otherwise; `Delete(p1, p2)` with the whole
range before `c` gives `c - (p2 - p1)`, and with a range straddling `c`
(`p1 ≤ c ≤ p2`) gives `p1`, on either side of daemon version 0.16. -/
theorem optimistic_index (rc : Reconnector) (s : Sys) (conn : Connection) (song : Song)
    (p p1 p2 : Nat) (c : Int)
    (hconn : s.c.connection_ = some conn)
    (hfin : s.w.finishResults.headD .success = .success)
    (hc : s.c.currentSongId_ = c) (h0 : 0 ≤ c) (h1 : c < 2147483648) :
    (AddAt rc song p s = UpdateStatus rc true (AddAtSend rc song p s) ∧
      (AddAtSend rc song p s).c.currentSongId_ = if (p : Int) ≤ c then c + 1 else c) ∧
    (0 < TotalNumberOfSongs s →
      (Delete rc p s = UpdateStatus rc true (DeleteSend rc p s) ∧
        (DeleteSend rc p s).c.currentSongId_ = if (p : Int) < c then c - 1 else c) ∧
      (DeleteRange rc p1 p2 s =
          UpdateStatus rc true
            (if s.c.versionMinor_ < 16 then CommandList.close rc true (DeleteRangeSend rc p1 p2 s)
             else DeleteRangeSend rc p1 p2 s)) ∧
      (p1 ≤ p2 → (p2 : Int) < c →
        (DeleteRangeSend rc p1 p2 s).c.currentSongId_ = c - ((p2 : Int) - p1)) ∧
      (p2 < 4294967296 → (p1 : Int) ≤ c → c ≤ p2 →
        (DeleteRangeSend rc p1 p2 s).c.currentSongId_ = p1)) := by
  subst hc
  refine ⟨⟨?_, AddAtSend_index rc song p s conn hconn hfin h0 h1⟩, fun hn => ⟨⟨?_, ?_⟩, ?_, ?_⟩⟩
  · simp [AddAt, Connected, hconn]
  · simp [Delete, Connected, hconn, hn]
  · exact DeleteSend_index rc p s conn hconn hfin h0 h1
  · simp [DeleteRange, Connected, hconn, hn]
  · exact DeleteRangeSend_index rc p1 p2 s conn hconn hfin hn h0 h1

/-- Worked example, tracked index 4: `Delete(2)` gives 3; from 3, `Add` at
position 1 gives 4; `Delete(0, 10)` gives 0, by batched single deletes (daemon
0.15) and by the native range delete (daemon 0.16) alike. -/
theorem optimistic_index_witness :
    (DeleteSend (Connect 1) 2 (c2State 4 15)).c.currentSongId_ = 3 ∧
    (AddAtSend (Connect 1) someSong 1 (c2State 3 15)).c.currentSongId_ = 4 ∧
    (DeleteRangeSend (Connect 1) 0 10 (c2State 4 15)).c.currentSongId_ = 0 ∧
    (DeleteRangeSend (Connect 1) 0 10 (c2State 4 16)).c.currentSongId_ = 0 := by
  have h4 := optimistic_index (Connect 1) (c2State 4 15) _ someSong 2 0 10 4 rfl rfl rfl
    (by decide) (by decide)
  have h3 := optimistic_index (Connect 1) (c2State 3 15) _ someSong 1 0 10 3 rfl rfl rfl
    (by decide) (by decide)
  have h5 := optimistic_index (Connect 1) (c2State 4 16) _ someSong 2 0 10 4 rfl rfl rfl
    (by decide) (by decide)
  have t : 0 < TotalNumberOfSongs (c2State 4 15) := by decide
  have t5 : 0 < TotalNumberOfSongs (c2State 4 16) := by decide
  refine ⟨?_, ?_, ?_, ?_⟩
  · simpa using (h4.2 t).1.2
  · simpa using h3.1.2
  · simpa using (h4.2 t).2.2.2 (by decide) (by decide) (by decide)
  · simpa using (h5.2 t5).2.2.2 (by decide) (by decide) (by decide)

/-! ## The refresh heuristic -/

theorem needSongUpdate_eq_refreshDue (c : Client) (st : MpdStatus)
    (hd : ∀ song, c.currentSong_ = some song → 3 ≤ song.duration ∧ song.duration < 4294967296) :
    needSongUpdate c st = refreshDue c st := by
  unfold needSongUpdate refreshDue
  cases hs : c.currentSong_ with
  | none =>
    by_cases h : c.mpdstate_ = st.state
    · simp [h]
    · have hne : (c.mpdstate_ != st.state) = true := by simpa using h
      simp [hne]
  | some song =>
    obtain ⟨h3, h4⟩ := hd song hs
    have : subU32 song.duration 3 = song.duration - 3 := subU32_of_le _ _ h3 h4
    simp only [this, Option.isNone_some, Bool.and_false, Bool.or_false]
    have : (c.elapsed_ ≥ song.duration - 3) ↔ (song.duration ≤ c.elapsed_ + 3) := by omega
    simp only [this]

theorem needSongUpdate_applyStatus_polled (st st2 : MpdStatus) (s : Sys) :
    needSongUpdate (applyStatus st (polled st s)).c st2 = needSongUpdate s.c st2 := by
  obtain ⟨-, -, -, -, -, a6, a7, a8, a9, -⟩ := applyStatus_c st (polled st s)
  unfold needSongUpdate
  rw [a6, a7, a8, a9]
  simp [polled]

/-- Claim C3, as amended.  A connected client that is not batching receives,
without protocol error, a daemon status `st`; every cached song is at least 3
seconds long.  Then `UpdateStatus` refreshes the cached current song
(`UpdateCurrentSong` runs between taking the options from the status and
settling it) exactly when (a) the daemon playback state differs from the one
recorded at the last snapshot, or (b) the daemon is not stopped and no song is
cached, or a song is cached and one of (c) the estimated elapsed time is within
3 seconds of its duration, (d) the daemon-reported elapsed time is less than
the recorded one, (e) the daemon-reported elapsed time is at most 3 seconds. -/
theorem UpdateStatus_refresh_iff (rc : Reconnector) (e : Bool) (s : Sys) (conn : Connection)
    (st : MpdStatus) (rest : List (ConnError × Option MpdStatus))
    (hconn : s.c.connection_ = some conn) (hlist : s.c.listMode_ = false)
    (hfin : s.w.finishResults.headD .success = .success)
    (hst : s.w.statusResults = (.success, some st) :: rest)
    (hd : ∀ song, s.c.currentSong_ = some song →
      3 ≤ song.duration ∧ song.duration < 4294967296) :
    UpdateStatus rc e s =
      settleStatus e st.queue_version (u32 s.c.queueVersion_)
        (if refreshDue s.c st = true then UpdateCurrentSong rc (applyStatus st (polled st s))
         else applyStatus st (polled st s)) := by
  rw [UpdateStatus_eq rc e s conn st rest hconn hlist hfin hst]
  unfold songStep
  rw [needSongUpdate_applyStatus_polled, needSongUpdate_eq_refreshDue s.c st hd]

/-- Worked example: a cached song of 200 seconds, an estimate of 198 seconds and
an unchanged playback state; the poll fetches the current song. -/
theorem UpdateStatus_refresh_iff_witness :
    refreshDue c3Song.c { MpdStatus.zero with state := .MPD_STATE_PLAY, elapsed_time := 198 } =
      true ∧
    Call.mpd_run_current_song ∈ (UpdateStatus (Connect 1) false c3Song).w.calls := by
  have h := UpdateStatus_refresh_iff (Connect 1) false c3Song _ _ _ rfl rfl rfl rfl (by decide)
  rw [h]
  decide

/-- With no song cached, a daemon elapsed time of at most 3 seconds does not
refresh the song: the client has just asked to play and the daemon stays
stopped at 0 seconds, so test (e) of the specification holds, yet the poll
does not fetch the current song, which a refresh would have done. -/
theorem UpdateStatus_no_refresh_without_song :
    refreshClaimed c3State.c c3Status = true ∧
    Call.mpd_run_current_song ∉ (UpdateStatus (Connect 1) false c3State).w.calls ∧
    Call.mpd_run_current_song ∈
      (UpdateCurrentSong (Connect 1) (applyStatus c3Status (polled c3Status c3State))).w.calls := by
  decide

/-- A cached song shorter than 3 seconds: `duration - 3` wraps around in
unsigned arithmetic, so the test "within 3 seconds of the duration" never
holds for it, and the poll does not fetch the current song. -/
theorem UpdateStatus_short_song_not_refreshed :
    subU32 2 3 = 4294967295 ∧
    needSongUpdate c3Short.c
      { MpdStatus.zero with state := .MPD_STATE_PLAY, elapsed_time := 4 } = false ∧
    Call.mpd_run_current_song ∉ (UpdateStatus (Connect 1) false c3Short).w.calls := by
  decide

/-! ## The elapsed-time estimate -/

theorem IncrementTime_eq_spec (rc : Reconnector) (deltaMs : Int) (s : Sys)
    (hd : 0 ≤ deltaMs) (ht : 0 ≤ s.c.timeSinceUpdate_) :
    IncrementTime rc deltaMs s = IncrementTime_spec rc deltaMs s := by
  have hdiv : Int.tdiv (s.c.timeSinceUpdate_ + deltaMs) 1000 =
      (s.c.timeSinceUpdate_ + deltaMs) / 1000 :=
    Int.tdiv_eq_ediv (by omega) (by norm_num)
  have hnat : (((s.c.mpdelapsed_ : Int) + (s.c.timeSinceUpdate_ + deltaMs) / 1000).toNat) =
      s.c.mpdelapsed_ + ((s.c.timeSinceUpdate_ + deltaMs) / 1000).toNat := by omega
  unfold IncrementTime IncrementTime_spec tickSpec
  simp only [Sys.setC, hdiv, hnat]
  by_cases hp : s.c.state_ = .MPD_STATE_PLAY
  · cases hs : s.c.currentSong_ with
    | none => simp [hp, hs]
    | some song =>
      simp only [hp, hs, if_true]
      by_cases hx : s.c.mpdelapsed_ + ((s.c.timeSinceUpdate_ + deltaMs) / 1000).toNat >
          song.duration
      · by_cases h1000 : s.c.timeSinceUpdate_ + deltaMs ≥ 1000 <;> simp [hx, h1000]
      · simp [hx]
  · cases hs : s.c.currentSong_ with
    | none => simp [hp, hs]
    | some song =>
      simp only [hp, hs, if_false]
      by_cases hx : s.c.elapsed_ > song.duration
      · by_cases h1000 : s.c.timeSinceUpdate_ + deltaMs ≥ 1000 <;> simp [hx, h1000]
      · simp [hx]

/-- Claim C4.  `IncrementTime(deltaMs)` with `deltaMs ≥ 0`, on a client whose
time since the last poll is not negative, equals the reference behaviour
`IncrementTime_spec`: it adds `deltaMs` to the time since the last poll and to
the time since the last song refresh; while playing it sets the estimate to
the daemon elapsed time at the last poll plus the whole seconds since that
poll; then, if a song is cached and the estimate exceeds its duration, the
estimate is set to 0 and a status poll is forced if and only if the time since
the last poll is at least 1000ms; in every other case no poll is made. -/
theorem IncrementTime_refines (rc : Reconnector) (deltaMs : Int) (s : Sys)
    (hd : 0 ≤ deltaMs) (ht : 0 ≤ s.c.timeSinceUpdate_) :
    IncrementTime rc deltaMs s = IncrementTime_spec rc deltaMs s :=
  IncrementTime_eq_spec rc deltaMs s hd ht

/-- Worked example: daemon elapsed 30 seconds, 1500ms of ticks while playing a
song of 200 seconds; the estimate is 31 seconds and no library call is made. -/
theorem IncrementTime_refines_witness :
    (IncrementTime (Connect 1) 500 (IncrementTime (Connect 1) 1000 c4State)).c.elapsed_ = 31 ∧
    (IncrementTime (Connect 1) 1500 c4State).c.elapsed_ = 31 ∧
    (IncrementTime (Connect 1) 1500 c4State).w.calls = [] := by
  have h := IncrementTime_refines (Connect 1) 1500 c4State (by decide) (by decide)
  rw [h]
  decide

theorem IncrementTime_quiet (rc : Reconnector) (s : Sys) (x y t : Int) (e : Nat)
    (hplay : s.c.state_ = .MPD_STATE_PLAY) (hmpd : s.c.mpdelapsed_ = 30)
    (hsong : ∀ song, s.c.currentSong_ = some song → 31 ≤ song.duration)
    (hx : 0 ≤ x) (ht : 0 ≤ t) (hsum : x + t < 2000) :
    IncrementTime rc t (withTimes s x y e) =
      withTimes s (x + t) (y + t) (30 + ((x + t) / 1000).toNat) := by
  rw [IncrementTime_eq_spec rc t _ ht (by simpa [withTimes, Sys.setC] using hx)]
  unfold IncrementTime_spec tickSpec withTimes
  simp only [Sys.setC, hplay, hmpd, if_true]
  cases hs : s.c.currentSong_ with
  | none => simp
  | some song =>
    have h31 := hsong song hs
    have : ¬ (30 + ((x + t) / 1000).toNat > song.duration) := by omega
    simp [this]

theorem IncrementTimes_quiet (rc : Reconnector) (s : Sys)
    (hplay : s.c.state_ = .MPD_STATE_PLAY) (hmpd : s.c.mpdelapsed_ = 30)
    (hsong : ∀ song, s.c.currentSong_ = some song → 31 ≤ song.duration) :
    ∀ (ticks : List Int) (x y : Int) (e : Nat), (∀ t ∈ ticks, 0 ≤ t) → 0 ≤ x →
      x + ticks.sum < 2000 →
      IncrementTimes rc ticks (withTimes s x y e) =
        withTimes s (x + ticks.sum) (y + ticks.sum)
          (if ticks = [] then e else 30 + ((x + ticks.sum) / 1000).toNat) := by
  intro ticks
  induction ticks with
  | nil => intro x y e _ _ _; simp [IncrementTimes]
  | cons t ts ih =>
    intro x y e hpos hx hsum
    have ht : 0 ≤ t := hpos t (List.mem_cons_self _ _)
    have hts : ∀ u ∈ ts, 0 ≤ u := fun u hu => hpos u (List.mem_cons_of_mem _ hu)
    have hsum0 : 0 ≤ ts.sum := List.sum_nonneg hts
    rw [List.sum_cons] at hsum
    simp only [IncrementTimes, List.foldl_cons]
    rw [IncrementTime_quiet rc s x y t e hplay hmpd hsong hx ht (by omega)]
    have := ih (x + t) (y + t) (30 + ((x + t) / 1000).toNat) hts (by omega) (by omega)
    simp only [IncrementTimes] at this
    rw [this, List.sum_cons]
    by_cases hnil : ts = []
    · subst hnil; simp
    · simp [hnil, add_assoc]

theorem withTimes_self (s : Sys) :
    withTimes s s.c.timeSinceUpdate_ s.c.timeSinceSong_ s.c.elapsed_ = s := by
  simp [withTimes, Sys.setC]

/-- Claim C5, as amended.  For a playing client whose last poll reported a
daemon elapsed time of 30 seconds, `IncrementTime` ticks totalling 1500ms force
a status poll only when a song is cached whose duration the estimate exceeds.
With no cached song, or a cached song of at least 31 seconds, the ticks only
move the counters and set the estimate to 31 seconds: nothing outside the
client changes, although 1500ms have passed since the last poll.  With a cached
song of at most 30 seconds, a tick of 1500ms sets the estimate to 0 and runs
the status poll. -/
theorem IncrementTime_poll_needs_overrun (rc : Reconnector) (s : Sys) (ticks : List Int)
    (hplay : s.c.state_ = .MPD_STATE_PLAY) (hmpd : s.c.mpdelapsed_ = 30)
    (h0 : s.c.timeSinceUpdate_ = 0)
    (hpos : ∀ t ∈ ticks, 0 ≤ t) (hsum : ticks.sum = 1500) :
    ((∀ song, s.c.currentSong_ = some song → 31 ≤ song.duration) →
      IncrementTimes rc ticks s = withTimes s 1500 (s.c.timeSinceSong_ + 1500) 31 ∧
      (IncrementTimes rc ticks s).w = s.w) ∧
    (∀ song, s.c.currentSong_ = some song → song.duration ≤ 30 →
      IncrementTime rc 1500 s =
        UpdateStatus rc false (withTimes s 1500 (s.c.timeSinceSong_ + 1500) 0)) := by
  constructor
  · intro hsong
    have h := IncrementTimes_quiet rc s hplay hmpd hsong ticks 0 s.c.timeSinceSong_ s.c.elapsed_
      hpos (le_refl 0) (by omega)
    rw [← h0, withTimes_self] at h
    have hne : ticks ≠ [] := by
      intro hnil; rw [hnil] at hsum; simp at hsum
    rw [h0, hsum] at h
    simp only [hne, if_false] at h
    have h31 : 30 + (((0 : Int) + 1500) / 1000).toNat = 31 := by decide
    rw [h31] at h
    norm_num at h
    exact ⟨h, by rw [h]; rfl⟩
  · intro song hs hdur
    rw [IncrementTime_eq_spec rc 1500 s (by decide) (by omega)]
    unfold IncrementTime_spec tickSpec withTimes
    simp only [Sys.setC, hplay, hmpd, h0, hs, if_true]
    have h31 : 30 + (((0 : Int) + 1500) / 1000).toNat = 31 := by decide
    have hx : 31 > song.duration := by omega
    simp [h31, hx]

/-- Worked example: three ticks of 500ms on a song of 200 seconds leave the
counters at 1500ms, the estimate at 31 seconds, and everything else as it was. -/
theorem IncrementTime_poll_needs_overrun_witness :
    IncrementTimes (Connect 1) [500, 500, 500] c4State = withTimes c4State 1500 1500 31 ∧
    (IncrementTimes (Connect 1) [500, 500, 500] c4State).w = c4State.w := by
  have h := (IncrementTime_poll_needs_overrun (Connect 1) c4State [500, 500, 500] rfl rfl rfl
    (by decide) (by decide)).1 (by decide)
  exact h

/-- A playing client whose last poll reported 30 seconds, with a cached song of
200 seconds: after ticks totalling 1500ms the time since the last poll is
1500ms and no status poll, indeed no library call at all, has been made. -/
theorem IncrementTime_no_forced_poll :
    c4State.c.state_ = .MPD_STATE_PLAY ∧ c4State.c.mpdelapsed_ = 30 ∧
    c4State.c.timeSinceUpdate_ = 0 ∧
    (IncrementTime (Connect 1) 1500 c4State).c.timeSinceUpdate_ = 1500 ∧
    Call.mpd_run_status ∉ (IncrementTime (Connect 1) 1500 c4State).w.calls ∧
    (IncrementTime (Connect 1) 1500 c4State).w.calls = [] ∧
    (IncrementTimes (Connect 1) [500, 500, 500] c4State).w.calls = [] := by
  decide

/-! ## The automatic reconnect -/

/-- Claim C6, as amended.  With reconnect-on-fatal-error enabled and no retry
made yet in this failure chain, a fatal protocol error followed by a second
fatal error in the connect call of the automatic reconnect makes `CheckError`
issue exactly one automatic `Connect`, to the last-known host and port (as
`Connect` resolves them): the old handle is released, one connection is
attempted and released again, the client ends disconnected with the retry
flag set, and both errors are reported. -/
theorem CheckError_reconnects_once (fuel : Nat) (s : Sys) (conn k : Connection)
    (rest : List (Option Connection))
    (hconn : s.c.connection_ = some conn) (herr : conn.error = .fatal)
    (hre : s.w.Reconnect = true) (hnot : s.c.retried_ = false)
    (hcr : s.w.connectResults = some k :: rest) (hk : k.error = .fatal) :
    (CheckError (Connect (fuel + 1)) s).w.calls =
      s.w.calls ++ [.mpd_connection_free,
        .mpd_connection_new (connectTarget s.c.hostname_ s.w.MPD_HOST).1
          (connectPort s.c.port_ s.w.MPD_PORT),
        .mpd_connection_free] ∧
    Connected (CheckError (Connect (fuel + 1)) s) = false ∧
    (CheckError (Connect (fuel + 1)) s).c.retried_ = true ∧
    (CheckError (Connect (fuel + 1)) s).w.errors =
      s.w.errors ++ [.ClientError, .ClientError] ∧
    (CheckError (Connect (fuel + 1)) s).w.fuelOut = s.w.fuelOut := by
  simp [CheckError, hconn, herr, Error, DeleteConnection, Sys.setC, Sys.setW, libcall, hre, hnot,
    Connect, ConnectBody, uiCall, mpd_connection_new, hcr, hk, Connected]

/-- Worked example: the daemon refuses the reconnect; one connection attempt to
the stored host and port is made, and the client ends disconnected. -/
theorem CheckError_reconnects_once_witness :
    connectCalls (CheckError (Connect 1)
        (c6State [some { error := .fatal, server_version := none }] [])).w.calls =
      [.mpd_connection_new "daemon" 6600] ∧
    Connected (CheckError (Connect 1)
        (c6State [some { error := .fatal, server_version := none }] [])) = false := by
  have h := CheckError_reconnects_once 0
    (c6State [some { error := .fatal, server_version := none }] []) _ _ _ rfl rfl rfl rfl rfl rfl
  refine ⟨?_, h.2.1⟩
  rw [h.1]
  decide

/-- A fatal error whose automatic reconnect connects, and whose first status
poll inside that `Connect` fails fatally: the successful connect has cleared
the retry flag, so `CheckError` connects a second time. -/
theorem CheckError_reconnects_again_after_connect :
    (c6State [some okConnection, some okConnection] [(.fatal, none)]).w.Reconnect = true ∧
    connectCalls (CheckError (Connect 3)
        (c6State [some okConnection, some okConnection] [(.fatal, none)])).w.calls =
      [.mpd_connection_new "daemon" 6600, .mpd_connection_new "daemon" 6600] ∧
    (CheckError (Connect 3)
        (c6State [some okConnection, some okConnection] [(.fatal, none)])).w.errors =
      [.ClientError, .ClientError] ∧
    (CheckError (Connect 3)
        (c6State [some okConnection, some okConnection] [(.fatal, none)])).w.fuelOut = false := by
  decide

/-! ## The queue-version baseline -/

/-- Claim C7, as amended.  A connected client that is not batching receives,
without protocol error, a daemon status with queue version `v1` while its
baseline is `v0`.  The baseline afterwards is `v1`, whatever `v0` was: it is
not smaller than `v0` exactly when the daemon's version is not.  The
reconciliation itself never runs backward: when `v1 ≤ v0` nothing is
replayed and the mirror is untouched.  `DeleteConnection`, and `Disconnect`
on this connected client, reset the baseline to -1. -/
theorem queueVersion_follows_daemon (rc : Reconnector) (e : Bool) (s : Sys)
    (conn : Connection) (st : MpdStatus) (rest : List (ConnError × Option MpdStatus))
    (hconn : s.c.connection_ = some conn) (hlist : s.c.listMode_ = false)
    (hfin : ∀ x ∈ s.w.finishResults, x = .success)
    (hsong : ∀ r ∈ s.w.songResults, r.1 = .success)
    (hst : s.w.statusResults = (.success, some st) :: rest)
    (hv0 : -1 ≤ s.c.queueVersion_) (hv0' : s.c.queueVersion_ < 2147483648) :
    (UpdateStatus rc e s).c.queueVersion_ = (st.queue_version : Int) ∧
    (s.c.queueVersion_ ≤ (UpdateStatus rc e s).c.queueVersion_ ↔
      s.c.queueVersion_ ≤ (st.queue_version : Int)) ∧
    ((st.queue_version : Int) ≤ s.c.queueVersion_ →
      (UpdateStatus rc e s).w.playlist = s.w.playlist ∧
      replayRequests (UpdateStatus rc e s).w = replayRequests s.w) ∧
    (DeleteConnection s).c.queueVersion_ = -1 ∧
    (Disconnect s).c.queueVersion_ = -1 := by
  obtain ⟨r1, r2, r3⟩ := UpdateStatus_settled rc e s conn st rest hconn hlist hfin hsong hst
  refine ⟨r1, by rw [r1], ?_, ?_, ?_⟩
  · intro hle
    rw [r2, r3, needReplay_backward _ _ e hv0 hv0' hle]
    simp
  · simp [DeleteConnection, Sys.setC, hconn, libcall, Sys.setW]
  · simp [Disconnect, Connected, DeleteConnection, Sys.setC, hconn, libcall, Sys.setW]

/-- Worked example: baseline 10, daemon version 5; the baseline becomes 5. -/
theorem queueVersion_follows_daemon_witness :
    (UpdateStatus (Connect 1) false c7State).c.queueVersion_ = 5 ∧
    (UpdateStatus (Connect 1) false c7State).w.playlist = c7State.w.playlist := by
  have h := queueVersion_follows_daemon (Connect 1) false c7State _ _ _ rfl rfl
    (by decide) (by decide) rfl (by decide) (by decide)
  exact ⟨h.1, (h.2.2.1 (by decide)).1⟩

/-- A connected client at baseline 10 that is told queue version 5 stays
connected and ends at baseline 5: smaller than before, and not -1. -/
theorem queueVersion_can_decrease :
    c7State.c.queueVersion_ = 10 ∧ Connected c7State = true ∧
    (UpdateStatus (Connect 1) false c7State).c.queueVersion_ = 5 ∧
    Connected (UpdateStatus (Connect 1) false c7State) = true ∧
    ¬ (c7State.c.queueVersion_ ≤ (UpdateStatus (Connect 1) false c7State).c.queueVersion_ ∨
       (UpdateStatus (Connect 1) false c7State).c.queueVersion_ = -1) := by
  decide

/-! ## Idempotence of the reconciliation -/

/-- Claim C9, as amended.  For every sequence of `Connect` and `Disconnect`
calls on a freshly constructed client, after each call `Connected()` is true
if and only if the connection handle is held, and after a further
`Disconnect()` the client is disconnected.  When that `Disconnect()` finds the
client connected it leaves volume = -1, protocol version = (-1, -1, -1) and
queue version = -1; when it finds the client already disconnected it changes
nothing. -/
theorem Disconnect_resets_when_connected (fuel : Nat) (steps : List LifeStep) (w : World) :
    (Connected (runSteps fuel steps { c := Client.new, w := w }) = true ↔
      (runSteps fuel steps { c := Client.new, w := w }).c.connection_.isSome = true) ∧
    Connected (Disconnect (runSteps fuel steps { c := Client.new, w := w })) = false ∧
    (Connected (runSteps fuel steps { c := Client.new, w := w }) = true →
      sentinels (Disconnect (runSteps fuel steps { c := Client.new, w := w })).c = true) ∧
    (Connected (runSteps fuel steps { c := Client.new, w := w }) = false →
      Disconnect (runSteps fuel steps { c := Client.new, w := w }) =
        runSteps fuel steps { c := Client.new, w := w }) := by
  generalize runSteps fuel steps { c := Client.new, w := w } = s
  refine ⟨Iff.rfl, ?_, ?_, ?_⟩
  · cases hc : s.c.connection_ <;>
      simp [Disconnect, Connected, hc, DeleteConnection, Sys.setC, Sys.setW, libcall]
  · intro h
    obtain ⟨k, hk⟩ := Option.isSome_iff_exists.mp h
    simp [Disconnect, Connected, hk, DeleteConnection, Sys.setC, Sys.setW, libcall, sentinels]
  · intro h
    simp [Disconnect, h]

/-- Worked example: connect to a daemon that accepts, then disconnect; the
client ends disconnected on the sentinel values. -/
theorem Disconnect_resets_when_connected_witness :
    Connected (runSteps 1 [.connect "" 0] Sys.fresh) = true ∧
    Connected (runSteps 1 [.connect "" 0, .disconnect] Sys.fresh) = false ∧
    sentinels (runSteps 1 [.connect "" 0, .disconnect] Sys.fresh).c = true := by
  have h := Disconnect_resets_when_connected 1 [.connect "" 0] World.quiet
  have hc : Connected (runSteps 1 [.connect "" 0] Sys.fresh) = true := by decide
  exact ⟨hc, h.2.1, h.2.2.1 hc⟩

/-- `Disconnect()` on the freshly constructed client: it is disconnected and
keeps the volume 100 of the constructor, not -1. -/
theorem Disconnect_fresh_keeps_volume :
    Connected (runSteps 1 [.disconnect] Sys.fresh) = false ∧
    (runSteps 1 [.disconnect] Sys.fresh).c.volume_ = 100 ∧
    sentinels (runSteps 1 [.disconnect] Sys.fresh).c = false := by
  decide

/-! ## Commands without a connection -/

/-- Claim C10, as amended.  For every public command invoked while
`Connected()` is false, no library call is issued and no field of the client
changes; exactly one NoConnection error is reported to the error sink by every
command except the five search set-up commands, which report nothing. -/
theorem disconnected_command (rc : Reconnector) (cmd : Command) (s : Sys)
    (h : Connected s = false) :
    (cmd.run rc s).c = s.c ∧
    (cmd.run rc s).w.calls = s.w.calls ∧
    (cmd.run rc s).w.nullDeref = s.w.nullDeref ∧
    (cmd.run rc s).w.errors =
      s.w.errors ++ (if cmd.isSearch = true then [] else [ErrorNumber.ClientNoConnection]) ∧
    cmd.run rc s = (if cmd.isSearch = true then s else Error .ClientNoConnection s) := by
  have key : cmd.run rc s = (if cmd.isSearch = true then s else Error .ClientNoConnection s) := by
    cases cmd with
    | AddSongPtr song => cases song <;> simp [Command.run, Command.isSearch, AddSongPtr, h]
    | _ =>
      simp [Command.run, Command.isSearch, Play, Pause, Stop, Next, Previous, Seek, SeekTo,
        SetRandom, SetSingle, SetConsume, SetRepeat, SetCrossfadeBool, SetCrossfade, SetVolume,
        Shuffle, Move, Swap, CreatePlaylist, SavePlaylist, LoadPlaylist, RemovePlaylist,
        AddToNamedPlaylist, SetOutput, EnableOutput, DisableOutput, AddSong, AddAt,
        AddAllSongs, AddURI, Delete, DeleteRange, Clear, SearchAny, SearchArtist, SearchGenre,
        SearchAlbum, SearchSong, Rescan, Update, Password, h]
  rw [key]
  refine ⟨?_, ?_, ?_, ?_, rfl⟩ <;> split <;> simp [Error, Sys.setW]

/-- Worked example: `Delete(3)` on the fresh, disconnected client reports one
NoConnection error and leaves the client as it was. -/
theorem disconnected_command_witness :
    (Command.run (Connect 1) (.Delete 3) Sys.fresh).w.errors = [.ClientNoConnection] ∧
    (Command.run (Connect 1) (.Delete 3) Sys.fresh).c = Sys.fresh.c := by
  have h := disconnected_command (Connect 1) (.Delete 3) Sys.fresh rfl
  exact ⟨by simpa [Sys.fresh, World.quiet, Command.isSearch] using h.2.2.2.1, h.1⟩

/-- `SearchAny` on the fresh, disconnected client reports no error at all. -/
theorem SearchAny_disconnected_is_silent :
    Connected Sys.fresh = false ∧
    (Command.run (Connect 1) (.SearchAny "x" false) Sys.fresh).w.errors = [] ∧
    (Command.run (Connect 1) (.SearchAny "x" false) Sys.fresh).w.errors ≠
      Sys.fresh.w.errors ++ [.ClientNoConnection] := by
  decide

/-! ## Teardown and the cached current song -/

/-- Claim C11, as amended.  Teardown leaves the cached current song alone: for
every connected client state, after `Disconnect()`, and after the teardown that
`CheckError` performs on a fatal protocol error when no automatic reconnect
follows, the client is disconnected and the tracked current-song position and
the current-song URI are what they were before the teardown.  They become -1
and the empty string at the next `UpdateCurrentSong`, which finds the client
disconnected. -/
theorem teardown_keeps_current_song (rc : Reconnector) (s : Sys) (conn : Connection)
    (hconn : s.c.connection_ = some conn) :
    (Connected (Disconnect s) = false ∧
      GetCurrentSong (Disconnect s) = GetCurrentSong s ∧
      GetCurrentSongURI (Disconnect s) = GetCurrentSongURI s) ∧
    (conn.error = .fatal → (s.w.Reconnect = false ∨ s.c.retried_ = true) →
      Connected (CheckError rc s) = false ∧
      GetCurrentSong (CheckError rc s) = GetCurrentSong s ∧
      GetCurrentSongURI (CheckError rc s) = GetCurrentSongURI s) ∧
    (GetCurrentSong (UpdateCurrentSong rc (Disconnect s)) = -1 ∧
      GetCurrentSongURI (UpdateCurrentSong rc (Disconnect s)) = "") := by
  refine ⟨?_, ?_, ?_⟩
  · simp [Disconnect, Connected, hconn, DeleteConnection, Sys.setC, Sys.setW, libcall,
      GetCurrentSong, GetCurrentSongURI]
  · intro he hr
    have hne : conn.error ≠ .success := by rw [he]; decide
    rcases hr with hr | hr <;>
      simp [CheckError, hconn, he, Error, DeleteConnection, Sys.setC, Sys.setW, libcall,
        Connected, GetCurrentSong, GetCurrentSongURI, hr]
  · simp [Disconnect, Connected, hconn, DeleteConnection, Sys.setC, Sys.setW, libcall,
      GetCurrentSong, GetCurrentSongURI, UpdateCurrentSong]

/-- Worked example: a client tracking position 4 of its queue loses its
connection to a fatal error; it is disconnected and still reports position 4
and the URI of that song, until `UpdateCurrentSong` runs. -/
theorem teardown_keeps_current_song_witness :
    Connected (CheckError (Connect 1) c11Fatal) = false ∧
    GetCurrentSong (CheckError (Connect 1) c11Fatal) = 4 ∧
    GetCurrentSongURI (CheckError (Connect 1) c11Fatal) = "e" ∧
    GetCurrentSong (UpdateCurrentSong (Connect 1) (Disconnect c11Fatal)) = -1 :=
  have h := teardown_keeps_current_song (Connect 1) c11Fatal
    { error := .fatal, server_version := none } rfl
  have h2 := h.2.1 rfl (Or.inl rfl)
  ⟨h2.1, h2.2.1, h2.2.2, h.2.2.1⟩

/-- `Disconnect()` on a connected client that tracks position 4: the client is
disconnected, and the tracked position is still 4 and the URI still that of the
song, not -1 and the empty string; the same holds after the teardown on a fatal
error. -/
theorem Disconnect_keeps_stale_song :
    Connected c11State = true ∧
    Connected (Disconnect c11State) = false ∧
    GetCurrentSong (Disconnect c11State) = 4 ∧
    GetCurrentSongURI (Disconnect c11State) = "e" ∧
    GetCurrentSong (CheckError (Connect 1) c11Fatal) ≠ -1 ∧
    GetCurrentSongURI (CheckError (Connect 1) c11Fatal) ≠ "" := by
  decide

/-! ## Command batching -/

theorem UpdateCurrentSong_calls (rc : Reconnector) (s : Sys) (conn : Connection)
    (hconn : s.c.connection_ = some conn) (hlist : s.c.listMode_ = false)
    (hfin : s.w.finishResults.headD .success = .success)
    (hsong : (s.w.songResults.headD (.success, none)).1 = .success) :
    (UpdateCurrentSong rc s).w.calls =
      s.w.calls ++ (if s.c.state_ ≠ .MPD_STATE_STOP then
        [.mpd_response_finish, .mpd_run_current_song] else []) := by
  have hfin2 := hfin
  have hsong2 := hsong
  simp only [List.headD_eq_head?_getD] at hfin2 hsong2
  by_cases hst : s.c.state_ = .MPD_STATE_STOP <;> cases hcs : s.c.currentSong_ <;>
    simp [UpdateCurrentSong, ClearCommand, Connected, hconn, hlist, hst, hcs, mpd_response_finish,
      libcall, setError, Sys.setC, Sys.setW, CheckError, hfin2, hsong2, mpd_run_current_song]
  all_goals (split <;> simp)

theorem settleStatus_calls (e : Bool) (v1 qv : Nat) (mid : Sys) (st : MpdStatus)
    (hc : mid.c.connection_.isSome = true) (hs : mid.c.currentStatus_ = some st) :
    (settleStatus e v1 qv mid).w.calls =
      mid.w.calls ++
        (if needReplay mid.c.queueVersion_ v1 qv e = true then
          [.mpd_send_queue_changes_meta qv] else []) := by
  obtain ⟨conn, hconn⟩ := Option.isSome_iff_exists.mp hc
  unfold settleStatus
  simp only [hs, reconcile, Sys.setC, Sys.setW]
  split <;>
    simp_all [ForEachQueuedSongChanges, Connected, libcall, Sys.setW, TotalNumberOfSongs]

theorem songStep_calls (rc : Reconnector) (st : MpdStatus) (s : Sys) (conn : Connection)
    (hconn : s.c.connection_ = some conn) (hlist : s.c.listMode_ = false)
    (hfin : s.w.finishResults.headD .success = .success)
    (hsong : (s.w.songResults.headD (.success, none)).1 = .success) :
    ∃ ext, (songStep rc st s).w.calls = s.w.calls ++ ext ∧
      ∀ k ∈ ext, k = Call.mpd_response_finish ∨ k = Call.mpd_run_current_song := by
  unfold songStep
  split
  · rw [UpdateCurrentSong_calls rc s conn hconn hlist hfin hsong]
    refine ⟨_, rfl, ?_⟩
    intro k hk
    split at hk <;> simp_all
  · exact ⟨[], by simp, by simp⟩

theorem UpdateStatus_calls (rc : Reconnector) (e : Bool) (s : Sys) (conn : Connection)
    (hconn : s.c.connection_ = some conn) (hlist : s.c.listMode_ = false)
    (hfin : ∀ x ∈ s.w.finishResults, x = .success)
    (hsong : ∀ r ∈ s.w.songResults, r.1 = .success)
    (hstat : ∀ r ∈ s.w.statusResults, r.1 = .success) :
    ∃ tail, (UpdateStatus rc e s).w.calls =
        s.w.calls ++ [.mpd_response_finish, .mpd_run_status] ++ tail ∧
      ∀ k ∈ tail, k = Call.mpd_response_finish ∨ k = Call.mpd_run_current_song ∨
        ∃ v, k = Call.mpd_send_queue_changes_meta v := by
  have h1 := headD_finish _ hfin
  have h2 := headD_finish _ (tail_finish _ hfin)
  have h3 := headD_song _ hsong
  have none_case : s.w.statusResults.head? = none ∨
      (∃ rest, s.w.statusResults = (.success, none) :: rest) →
      (UpdateStatus rc e s).w.calls = s.w.calls ++ [.mpd_response_finish, .mpd_run_status] := by
    intro h
    unfold UpdateStatus
    rw [ClearCommand_ok rc s conn hconn hlist h1]
    rcases h with h | ⟨rest, h⟩ <;>
      simp [Connected, hlist, mpd_run_status, Sys.setC, Sys.setW, libcall, setError, h,
        CheckError, hconn]
  cases hsr : s.w.statusResults with
  | nil => exact ⟨[], by rw [none_case (Or.inl (by simp [hsr]))]; simp, by simp⟩
  | cons r rest =>
    obtain ⟨e0, x⟩ := r
    have he0 : e0 = .success := hstat (e0, x) (by simp [hsr])
    subst he0
    cases x with
    | none => exact ⟨[], by rw [none_case (Or.inr ⟨rest, hsr⟩)]; simp, by simp⟩
    | some st =>
      obtain ⟨p1, p2, p3, p4, p5, p6, p7, p8⟩ := polled_frame st s conn hconn
      obtain ⟨a1, a2, a3, a4, a5, -⟩ := applyStatus_c st (polled st s)
      have hl : (applyStatus st (polled st s)).c.listMode_ = false := by
        rw [a3]; simpa [polled] using hlist
      obtain ⟨g1, -, g3, -⟩ :=
        songStep_frame rc st (applyStatus st (polled st s)) _ (a2.trans p1)
          (by rw [a1, p6]; exact h2) (by rw [a1, p7]; exact h3)
      rw [a4, p2] at g3
      obtain ⟨ext, hext, hmem⟩ := songStep_calls rc st (applyStatus st (polled st s)) _
        (a2.trans p1) hl (by rw [a1, p6]; exact h2) (by rw [a1, p7]; exact h3)
      have hpc : (polled st s).w.calls = s.w.calls ++ [.mpd_response_finish, .mpd_run_status] := by
        simp [polled]
      rw [a1, hpc] at hext
      rw [UpdateStatus_eq rc e s conn st rest hconn hlist h1 hsr,
        settleStatus_calls e _ _ _ st g1 g3, hext]
      refine ⟨ext ++ _, by simp only [List.append_assoc, List.cons_append, List.nil_append]; rfl, ?_⟩
      intro k hk
      rcases List.mem_append.mp hk with hk | hk
      · rcases hmem k hk with h | h
        · exact Or.inl h
        · exact Or.inr (Or.inl h)
      · split at hk
        · exact Or.inr (Or.inr ⟨_, List.mem_singleton.mp hk⟩)
        · simp at hk

theorem CommandList_open_eq (rc : Reconnector) (s : Sys) (conn : Connection)
    (hconn : s.c.connection_ = some conn) (hlist : s.c.listMode_ = false)
    (hfin : s.w.finishResults.headD .success = .success) :
    CommandList.open rc true s =
      { c := { s.c with connection_ := some { conn with error := .success }, listMode_ := true },
        w := { s.w with calls := s.w.calls ++ [.mpd_response_finish, .mpd_command_list_begin],
                        finishResults := s.w.finishResults.tail } } := by
  unfold CommandList.open StartCommandList
  rw [if_pos rfl, ClearCommand_ok rc s conn hconn hlist hfin]
  simp [Connected, libcall, Sys.setC, Sys.setW]

theorem Delete_listMode_world (rc : Reconnector) (p : Nat) (t : Sys) (k : Connection)
    (hk : t.c.connection_ = some k) (hl : t.c.listMode_ = true)
    (hn : 0 < TotalNumberOfSongs t) :
    (Delete rc p t).w = { t.w with calls := t.w.calls ++ [.mpd_send_delete p] } := by
  unfold Delete DeleteSend
  simp only [Connected, hk, Option.isSome_some, hn, gt_iff_lt, and_self, if_true,
    ClearCommand_listMode rc t hl, libcall, Sys.setW, Sys.setC]
  split <;> simp [UpdateStatus, ClearCommand, hl, Connected, hk]

theorem Deletes_listMode (rc : Reconnector) :
    ∀ (ps : List Nat) (t : Sys) (k : Connection), t.c.connection_ = some k →
      t.c.listMode_ = true → 0 < TotalNumberOfSongs t →
      (Deletes rc ps t).w = { t.w with calls := t.w.calls ++ ps.map Call.mpd_send_delete } ∧
      (Deletes rc ps t).c.connection_ = some k ∧
      (Deletes rc ps t).c.listMode_ = true := by
  intro ps
  induction ps with
  | nil => intro t k hk hl _; simp [Deletes, hk, hl]
  | cons p ps ih =>
    intro t k hk hl hn
    obtain ⟨d1, d2, d3, -⟩ := Delete_listMode rc p t k hk hl hn
    have hw := Delete_listMode_world rc p t k hk hl hn
    have hn2 : 0 < TotalNumberOfSongs (Delete rc p t) := by
      rw [TotalNumberOfSongs_congr (Delete rc p t) t (by rw [d1, hk]) d3]; exact hn
    obtain ⟨i1, i2, i3⟩ := ih (Delete rc p t) k d1 d2 hn2
    refine ⟨?_, i2, i3⟩
    show (Deletes rc ps (Delete rc p t)).w = _
    rw [i1, hw]
    simp

theorem SendCommandList_eq (rc : Reconnector) (t : Sys) (k : Connection)
    (hk : t.c.connection_ = some k)
    (hfin : t.w.finishResults.headD .success = .success) :
    SendCommandList rc t = UpdateStatus rc true (sentBatch t) := by
  have hfin2 := hfin
  simp only [List.headD_eq_head?_getD] at hfin2
  unfold SendCommandList
  rw [if_pos (by simp [Connected, hk])]
  simp [libcall, hk, mpd_response_finish, setError, CheckError, Sys.setC, Sys.setW, hfin2,
    sentBatch]

/-- Claim C12.  On a connected client that is not yet batching, with a
non-empty queue and a daemon that answers without protocol error, any number
of `Delete(position)` calls made inside one `CommandList` scope whose condition
is true are sent as one command list.  While the scope is open the only calls
issued are the drain and the list begin of the opening followed by one delete
per call: no drain and no status poll per operation.  Closing the scope issues
the list end and one drain and then runs `UpdateStatus(true)`, whose poll is
the only status request of the whole scope. -/
theorem CommandList_batches_deletes (rc : Reconnector) (s : Sys) (conn : Connection)
    (ps : List Nat)
    (hconn : s.c.connection_ = some conn) (hlist : s.c.listMode_ = false)
    (hq : 0 < TotalNumberOfSongs s)
    (hfin : ∀ x ∈ s.w.finishResults, x = .success)
    (hsong : ∀ r ∈ s.w.songResults, r.1 = .success)
    (hstat : ∀ r ∈ s.w.statusResults, r.1 = .success) :
    (Deletes rc ps (CommandList.open rc true s)).w.calls =
      s.w.calls ++ [.mpd_response_finish, .mpd_command_list_begin] ++
        ps.map Call.mpd_send_delete ∧
    CommandList.close rc true (Deletes rc ps (CommandList.open rc true s)) =
      UpdateStatus rc true (sentBatch (Deletes rc ps (CommandList.open rc true s))) ∧
    ∃ tail,
      (CommandList.close rc true (Deletes rc ps (CommandList.open rc true s))).w.calls =
        s.w.calls ++ [.mpd_response_finish, .mpd_command_list_begin] ++
          ps.map Call.mpd_send_delete ++
          [.mpd_command_list_end, .mpd_response_finish] ++
          [.mpd_response_finish, .mpd_run_status] ++ tail ∧
      ∀ k ∈ tail, k = Call.mpd_response_finish ∨ k = Call.mpd_run_current_song ∨
        ∃ v, k = Call.mpd_send_queue_changes_meta v := by
  have h1 := headD_finish _ hfin
  have hopen := CommandList_open_eq rc s conn hconn hlist h1
  have hn2 : 0 < TotalNumberOfSongs (CommandList.open rc true s) := by
    rw [TotalNumberOfSongs_congr _ s (by rw [hopen]; simp [hconn]) (by rw [hopen])]; exact hq
  obtain ⟨i1, i2, i3⟩ := Deletes_listMode rc ps (CommandList.open rc true s)
    { conn with error := .success } (by rw [hopen]) (by rw [hopen]) hn2
  have hcalls : (Deletes rc ps (CommandList.open rc true s)).w.calls =
      s.w.calls ++ [.mpd_response_finish, .mpd_command_list_begin] ++
        ps.map Call.mpd_send_delete := by
    rw [i1, hopen]
  have hfinI : (Deletes rc ps (CommandList.open rc true s)).w.finishResults =
      s.w.finishResults.tail := by
    rw [i1, hopen]
  have hsongI : (Deletes rc ps (CommandList.open rc true s)).w.songResults =
      s.w.songResults := by
    rw [i1, hopen]
  have hstatI : (Deletes rc ps (CommandList.open rc true s)).w.statusResults =
      s.w.statusResults := by
    rw [i1, hopen]
  have hclose : CommandList.close rc true (Deletes rc ps (CommandList.open rc true s)) =
      UpdateStatus rc true (sentBatch (Deletes rc ps (CommandList.open rc true s))) := by
    unfold CommandList.close
    rw [if_pos rfl]
    exact SendCommandList_eq rc _ _ i2
      (by rw [hfinI]; exact headD_finish _ (tail_finish _ hfin))
  refine ⟨hcalls, hclose, ?_⟩
  generalize Deletes rc ps (CommandList.open rc true s) = t at *
  obtain ⟨tail, ht, hmem⟩ := UpdateStatus_calls rc true (sentBatch t)
    { conn with error := .success } (by simp [sentBatch, i2]) (by simp [sentBatch])
    (by
      show ∀ x ∈ t.w.finishResults.tail, x = .success
      rw [hfinI]; exact tail_finish _ (tail_finish _ hfin))
    (by
      show ∀ r ∈ t.w.songResults, r.1 = .success
      rw [hsongI]; exact hsong)
    (by
      show ∀ r ∈ t.w.statusResults, r.1 = .success
      rw [hstatI]; exact hstat)
  refine ⟨tail, ?_, hmem⟩
  rw [hclose, ht]
  show t.w.calls ++ [.mpd_command_list_end, .mpd_response_finish] ++ _ ++ tail = _
  rw [hcalls]

/-- Worked example, three deletes at position 1 in one scope on a queue of five
entries: one list begin, three deletes, one list end, and one status poll. -/
theorem CommandList_batches_deletes_witness :
    (CommandList.close (Connect 1) true
      (Deletes (Connect 1) [1, 1, 1] (CommandList.open (Connect 1) true c12State))).w.calls =
      [.mpd_response_finish, .mpd_command_list_begin,
        .mpd_send_delete 1, .mpd_send_delete 1, .mpd_send_delete 1,
        .mpd_command_list_end, .mpd_response_finish,
        .mpd_response_finish, .mpd_run_status] ∧
    (Deletes (Connect 1) [1, 1, 1] (CommandList.open (Connect 1) true c12State)).w.calls =
      [.mpd_response_finish, .mpd_command_list_begin,
        .mpd_send_delete 1, .mpd_send_delete 1, .mpd_send_delete 1] := by
  have h := CommandList_batches_deletes (Connect 1) c12State _ [1, 1, 1] rfl rfl (by decide)
    (by decide) (by decide) (by decide)
  exact ⟨by decide, h.1⟩

/-! ## The position correction pass -/

theorem scanRows_succ (cmp : SongCompare) (song : MpdSong) (q : List Song) (first i n : Nat) :
    scanRows cmp song q first i (n + 1) =
      if matchesAt cmp song q (i + first) = true then some (i + first)
      else scanRows cmp song q first (i + 1) n := by
  rw [scanRows]
  unfold matchesAt
  cases q[i + first]? <;> simp

theorem scanRows_first (cmp : SongCompare) (song : MpdSong) (q : List Song) (first : Nat) :
    ∀ (n i : Nat),
      (∀ id, scanRows cmp song q first i n = some id →
        i + first ≤ id ∧ id < i + first + n ∧ matchesAt cmp song q id = true ∧
        ∀ j, i + first ≤ j → j < id → matchesAt cmp song q j = false) ∧
      (scanRows cmp song q first i n = none →
        ∀ j, i + first ≤ j → j < i + first + n → matchesAt cmp song q j = false) := by
  intro n
  induction n with
  | zero =>
    intro i
    refine ⟨fun id h => by simp [scanRows] at h, fun _ j h1 h2 => by omega⟩
  | succ n ih =>
    intro i
    obtain ⟨ih1, ih2⟩ := ih (i + 1)
    have step : ∀ j, i + first ≤ j → j ≠ i + first → i + 1 + first ≤ j := by omega
    by_cases hm : matchesAt cmp song q (i + first) = true
    · have hs : scanRows cmp song q first i (n + 1) = some (i + first) := by
        rw [scanRows_succ, if_pos hm]
      refine ⟨fun id h => ?_, fun h => by simp [hs] at h⟩
      rw [hs] at h
      cases h
      exact ⟨le_refl _, by omega, hm, fun j h1 h2 => by omega⟩
    · have hm2 : matchesAt cmp song q (i + first) = false := by simpa using hm
      have hs : scanRows cmp song q first i (n + 1) = scanRows cmp song q first (i + 1) n := by
        rw [scanRows_succ, if_neg hm]
      rw [hs]
      refine ⟨fun id h => ?_, fun h j h1 h2 => ?_⟩
      · obtain ⟨a, b, c, d⟩ := ih1 id h
        refine ⟨by omega, by omega, c, fun j h1 h2 => ?_⟩
        by_cases hj : j = i + first
        · rw [hj]; exact hm2
        · exact d j (step j h1 hj) h2
      · by_cases hj : j = i + first
        · rw [hj]; exact hm2
        · exact ih2 h j (step j h1 hj) (by omega)

/-- Claim C13.  `UpdateCurrentSongPosition` issues no protocol call and changes
nothing but the tracked index.  For every cached song `s`, tracked index
`c ≥ 0` and mirrored queue `q` (the two comparisons of an entry with a song
being each the negation of the other): if the entry of `q` at `c` equals `s`,
the tracked index is unchanged; if the entry of `q` at `c` does not equal `s`,
the tracked index becomes the first position `i` with first visible line
`≤ i <` first visible line + visible rows that lies within the queue and whose
entry equals `s`, or -1 when the window holds no such entry.  When the queue
has no entry at `c`, the pass changes nothing. -/
theorem UpdateCurrentSongPosition_scans_window (cmp : SongCompare) (s : Sys) (song : MpdSong)
    (c : Int) (hne : ∀ a b, cmp.ne a b = !cmp.eq a b)
    (hsong : s.c.currentSong_ = some song) (hc : s.c.currentSongId_ = c) (h0 : 0 ≤ c) :
    (UpdateCurrentSongPosition cmp s).w = s.w ∧
    (UpdateCurrentSongPosition cmp s).c =
      { s.c with currentSongId_ := (UpdateCurrentSongPosition cmp s).c.currentSongId_ } ∧
    (∀ e, s.w.playlist[c.toNat]? = some e → cmp.eq e song = true →
      (UpdateCurrentSongPosition cmp s).c.currentSongId_ = c) ∧
    (∀ e, s.w.playlist[c.toNat]? = some e → cmp.eq e song = false →
      (∃ i : Nat, (UpdateCurrentSongPosition cmp s).c.currentSongId_ = (i : Int) ∧
          s.w.FirstLine ≤ i ∧ i < s.w.FirstLine + s.w.MaxRows ∧
          matchesAt cmp song s.w.playlist i = true ∧
          ∀ j, s.w.FirstLine ≤ j → j < i → matchesAt cmp song s.w.playlist j = false) ∨
      ((UpdateCurrentSongPosition cmp s).c.currentSongId_ = -1 ∧
          ∀ j, s.w.FirstLine ≤ j → j < s.w.FirstLine + s.w.MaxRows →
            matchesAt cmp song s.w.playlist j = false)) ∧
    (s.w.playlist[c.toNat]? = none →
      (UpdateCurrentSongPosition cmp s).c.currentSongId_ = c) := by
  subst hc
  have hge : s.c.currentSongId_ ≥ 0 := h0
  obtain ⟨sc1, sc2⟩ := scanRows_first cmp song s.w.playlist s.w.FirstLine s.w.MaxRows 0
  refine ⟨?_, ?_, ?_, ?_, ?_⟩
  · unfold UpdateCurrentSongPosition
    iterate 5 (all_goals (try split))
    all_goals rfl
  · unfold UpdateCurrentSongPosition
    iterate 5 (all_goals (try split))
    all_goals rfl
  · intro e he heq
    unfold UpdateCurrentSongPosition
    simp [hsong, hge, he, hne, heq]
  · intro e he heq
    unfold UpdateCurrentSongPosition
    simp only [hsong, hge, if_true, he, hne, heq, Bool.not_false]
    cases hscan : scanRows cmp song s.w.playlist s.w.FirstLine 0 s.w.MaxRows with
    | some id =>
      left
      obtain ⟨a, b, c, d⟩ := sc1 id hscan
      exact ⟨id, rfl, by omega, by omega, c, fun j h1 h2 => d j (by omega) h2⟩
    | none =>
      right
      exact ⟨rfl, fun j h1 h2 => sc2 hscan j (by omega) (by omega)⟩
  · intro he
    unfold UpdateCurrentSongPosition
    simp [hsong, hge, he]

/-- Worked example on a queue of five entries with the cached song at position
3, the client tracking position 1.  With lines 2 to 4 visible the index becomes
3; with lines 0 to 1 visible it becomes -1; a client that tracks position 3
keeps it. -/
theorem UpdateCurrentSongPosition_scans_window_witness :
    (UpdateCurrentSongPosition .byURI (c13State 1 2 3)).c.currentSongId_ = 3 ∧
    (UpdateCurrentSongPosition .byURI (c13State 1 0 2)).c.currentSongId_ = -1 ∧
    (UpdateCurrentSongPosition .byURI (c13State 3 0 2)).c.currentSongId_ = 3 ∧
    (UpdateCurrentSongPosition .byURI (c13State 1 2 3)).w = (c13State 1 2 3).w := by
  have hne : ∀ (a : Song) (b : MpdSong),
      SongCompare.byURI.ne a b = !SongCompare.byURI.eq a b := fun _ _ => rfl
  have h1 := UpdateCurrentSongPosition_scans_window .byURI (c13State 1 2 3)
    (MpdSong.mk3 3 "d" 100) 1 hne rfl rfl (by decide)
  have h3 := UpdateCurrentSongPosition_scans_window .byURI (c13State 3 0 2)
    (MpdSong.mk3 3 "d" 100) 3 hne rfl rfl (by decide)
  exact ⟨by decide, by decide, h3.2.2.1 _ rfl (by decide), h1.1⟩

/-! ## The target of `Connect` -/

theorem find_last_of_none (ch : Char) : ∀ (l : List Char), ch ∉ l → find_last_of l ch = none := by
  intro l
  induction l with
  | nil => intro _; rfl
  | cons c cs ih =>
    intro h
    simp only [List.mem_cons, not_or] at h
    have hc : ¬ c = ch := fun e => h.1 e.symm
    simp [find_last_of, ih h.2, hc]

theorem find_last_of_append (ch : Char) (h : List Char) (hh : ch ∉ h) :
    ∀ (pw : List Char), find_last_of (pw ++ ch :: h) ch = some pw.length := by
  intro pw
  induction pw with
  | nil => simp [find_last_of, find_last_of_none ch h hh]
  | cons c cs ih => simp [find_last_of, ih]

theorem connectTarget_env (pw h : List Char) (hh : '@' ∉ h) :
    connectTarget "" (some (String.mk (pw ++ '@' :: h))) = (String.mk h, String.mk pw) := by
  have : ("" : String).data.isEmpty = true := rfl
  simp [connectTarget, this, find_last_of_append '@' h hh pw]

theorem connectTarget_arg (hostname : String) (env : Option String) (h : hostname ≠ "") :
    connectTarget hostname env = (hostname, "") := by
  have : hostname.data.isEmpty = false := by
    cases hostname with
    | mk data =>
      cases data with
      | nil => exact absurd rfl h
      | cons _ _ => rfl
  simp [connectTarget, this]

theorem connectTarget_stable (hostname : String) (env : Option String) :
    (connectTarget (connectTarget hostname env).1 env).1 = (connectTarget hostname env).1 := by
  by_cases h : hostname = ""
  · subst h
    cases env with
    | none => decide
    | some e =>
      have he : ("" : String).data.isEmpty = true := rfl
      cases hf : find_last_of e.data '@' with
      | none =>
        have : connectTarget "" (some e) = (e, "") := by simp [connectTarget, he, hf]
        rw [this]
        by_cases h2 : e = ""
        · subst h2; exact congrArg Prod.fst this
        · rw [connectTarget_arg e _ h2]
      | some pos =>
        have : connectTarget "" (some e) =
            (String.mk (e.data.drop (pos + 1)), String.mk (e.data.take pos)) := by
          simp [connectTarget, he, hf]
        rw [this]
        by_cases h2 : String.mk (e.data.drop (pos + 1)) = ""
        · simp only [h2]; rw [this, h2]
        · rw [connectTarget_arg _ _ h2]
  · rw [connectTarget_arg hostname env h, connectTarget_arg hostname env h]

theorem connectPort_stable (port : Nat) (env : Option String) :
    connectPort (connectPort port env) env = connectPort port env := by
  unfold connectPort
  by_cases h : port = 0
  · cases env with
    | none => simp [h]
    | some e =>
      by_cases h2 : u16 (atoi e.data) = 0
      · simp [h, h2]
      · simp [h, h2]
  · simp [h]

theorem connectPort_lt (port : Nat) (env : Option String) (h : port < 65536) :
    connectPort port env < 65536 := by
  unfold connectPort u16
  split
  · split
    · omega
    · omega
  · exact h

theorem settled_congr (s t : Sys) (h : target t = target s) : settled t = settled s := by
  simp only [target, Prod.mk.injEq] at h
  obtain ⟨h1, h2, h3, h4⟩ := h
  simp [settled, h1, h2, h3, h4]

theorem libcall_target (k : Call) (s : Sys) : target (libcall k s) = target s := by
  cases hc : s.c.connection_ <;> simp [libcall, hc, target, Sys.setW]

theorem DeleteConnection_target (s : Sys) : target (DeleteConnection s) = target s := by
  cases hc : s.c.connection_ <;> simp [DeleteConnection, target, libcall, Sys.setC, Sys.setW, hc]

theorem CheckError_target (rc : Reconnector)
    (hrc : ∀ t, settled t = true → target (rc t.c.hostname_ t.c.port_ t) = target t)
    (s : Sys) (hs : settled s = true) : target (CheckError rc s) = target s := by
  unfold CheckError
  split
  · rfl
  · split
    · split
      · have hd : target (DeleteConnection (Error .ClientError s)) = target s := by
          rw [DeleteConnection_target]; rfl
        dsimp only
        split
        · have ht : target ((DeleteConnection (Error .ClientError s)).setC
              fun c => { c with retried_ := true }) = target s := hd
          rw [hrc _ (by rw [settled_congr _ _ ht]; exact hs), ht]
        · exact hd
      · rfl
    · rfl

theorem mpd_response_finish_target (s : Sys) : target (mpd_response_finish s) = target s := by
  cases hc : s.c.connection_ <;>
    simp [mpd_response_finish, hc, target, libcall, Sys.setC, Sys.setW, setError]

theorem ClearCommand_target (rc : Reconnector)
    (hrc : ∀ t, settled t = true → target (rc t.c.hostname_ t.c.port_ t) = target t)
    (s : Sys) (hs : settled s = true) : target (ClearCommand rc s) = target s := by
  unfold ClearCommand
  split
  · have h := mpd_response_finish_target s
    rw [CheckError_target rc hrc _ (by rw [settled_congr _ _ h]; exact hs), h]
  · rfl

theorem mpd_run_current_song_target (s : Sys) : target (mpd_run_current_song s) = target s := by
  cases hc : s.c.connection_ <;>
    simp [mpd_run_current_song, hc, target, libcall, Sys.setC, Sys.setW, setError]

theorem mpd_run_status_target (s : Sys) : target (mpd_run_status s) = target s := by
  cases hc : s.c.connection_ <;>
    simp [mpd_run_status, hc, target, libcall, Sys.setC, Sys.setW, setError]

theorem UpdateCurrentSong_target (rc : Reconnector)
    (hrc : ∀ t, settled t = true → target (rc t.c.hostname_ t.c.port_ t) = target t)
    (s : Sys) (hs : settled s = true) : target (UpdateCurrentSong rc s) = target s := by
  unfold UpdateCurrentSong
  split
  · split
    · have h0 : target (if s.c.currentSong_.isSome then
          s.setC fun c => { c with currentSong_ := none, currentSongId_ := -1, currentSongURI_ := "" }
          else s) = target s := by split <;> rfl
      generalize (if s.c.currentSong_.isSome then
          s.setC fun c => { c with currentSong_ := none, currentSongId_ := -1, currentSongURI_ := "" }
          else s) = s0 at h0
      have hs0 : settled s0 = true := by rw [settled_congr _ _ h0]; exact hs
      dsimp only
      split
      · have h1 := ClearCommand_target rc hrc s0 hs0
        have h2 : target (mpd_run_current_song
            ((ClearCommand rc s0).setC fun c => { c with timeSinceSong_ := 0 })) = target s0 := by
          rw [mpd_run_current_song_target]; exact h1
        have h3 := CheckError_target rc hrc _ (by rw [settled_congr _ _ h2]; exact hs0)
        split
        · exact (h3.trans h2).trans h0
        · exact (h3.trans h2).trans h0
      · exact h0
    · rfl
  · rfl

theorem reconcile_target (e : Bool) (v qv : Nat) (s : Sys) :
    target (reconcile e v qv s) = target s := by
  unfold reconcile
  dsimp only
  split
  · cases hc : s.c.connection_ <;>
      simp [ForEachQueuedSongChanges, Connected, hc, libcall, target, Sys.setC, Sys.setW]
  · rfl

theorem applyStatus_target (st : MpdStatus) (s : Sys) : target (applyStatus st s) = target s := by
  unfold applyStatus
  dsimp only
  split <;> rfl

theorem settleStatus_target (e : Bool) (v qv : Nat) (s : Sys) :
    target (settleStatus e v qv s) = target s := by
  unfold settleStatus
  split
  · dsimp only
    rw [reconcile_target]; rfl
  · rfl

theorem UpdateStatus_target (rc : Reconnector)
    (hrc : ∀ t, settled t = true → target (rc t.c.hostname_ t.c.port_ t) = target t)
    (e : Bool) (s : Sys) (hs : settled s = true) : target (UpdateStatus rc e s) = target s := by
  unfold UpdateStatus
  have h1 := ClearCommand_target rc hrc s hs
  dsimp only
  generalize ClearCommand rc s = s1 at h1
  split
  · have h2 : target (mpd_run_status ((s1.setC fun c => { c with currentStatus_ := none }).setC
        fun c => { c with timeSinceUpdate_ := 0 })) = target s := by
      rw [mpd_run_status_target]; exact h1
    have h3 := CheckError_target rc hrc _ (by rw [settled_congr _ _ h2]; exact hs)
    have h4 := h3.trans h2
    generalize CheckError rc (mpd_run_status ((s1.setC fun c => { c with currentStatus_ := none }).setC
        fun c => { c with timeSinceUpdate_ := 0 })) = s2 at h4
    split
    · rename_i st _
      rw [settleStatus_target]
      have h5 : target (applyStatus st s2) = target s := (applyStatus_target st s2).trans h4
      unfold songStep
      split
      · rw [UpdateCurrentSong_target rc hrc _ (by rw [settled_congr _ _ h5]; exact hs)]; exact h5
      · exact h5
    · exact h4
  · exact h1

theorem GetVersion_target (rc : Reconnector)
    (hrc : ∀ t, settled t = true → target (rc t.c.hostname_ t.c.port_ t) = target t)
    (s : Sys) (hs : settled s = true) : target (GetVersion rc s) = target s := by
  unfold GetVersion
  have h := CheckError_target rc hrc s hs
  split
  · dsimp only
    split
    · exact h
    · exact h
  · rfl

theorem Password_target (rc : Reconnector)
    (hrc : ∀ t, settled t = true → target (rc t.c.hostname_ t.c.port_ t) = target t)
    (pw : String) (s : Sys) (hs : settled s = true) : target (Password rc pw s) = target s := by
  unfold Password
  split
  · dsimp only
    rw [libcall_target]; exact ClearCommand_target rc hrc s hs
  · rfl

theorem CurrentState_target (s : Sys) : target (CurrentState s) = target s := by
  unfold CurrentState
  split
  · split
    · split <;> rfl
    · rfl
  · rfl

theorem DisplaySongInformation_target (s : Sys) :
    target (DisplaySongInformation s) = target s := by
  unfold DisplaySongInformation
  have h := CurrentState_target s
  dsimp only
  generalize CurrentState s = s1 at h
  split
  · split
    · split <;> exact h
    · exact h
  · exact h

theorem OnConnected_target (s : Sys) : target (OnConnected s) = target s := by
  cases hc : s.c.connection_ <;>
    simp [OnConnected, uiCall, setError, target, Sys.setC, Sys.setW, hc]

theorem settled_of_target (t : Sys) (H : String) (P : Nat) (eh ep : Option String)
    (h : target t = (H, P, eh, ep))
    (hH : (connectTarget H eh).1 = H) (hP : connectPort P ep = P) : settled t = true := by
  simp only [target, Prod.mk.injEq] at h
  obtain ⟨h1, h2, h3, h4⟩ := h
  simp [settled, h1, h2, h3, h4, hH, hP]

theorem ConnectBody_target (rc : Reconnector)
    (hrc : ∀ t, settled t = true → target (rc t.c.hostname_ t.c.port_ t) = target t)
    (hostname : String) (port : Nat) (s : Sys) :
    target (ConnectBody rc hostname port s) =
      ((connectTarget hostname s.w.MPD_HOST).1, connectPort port s.w.MPD_PORT,
        s.w.MPD_HOST, s.w.MPD_PORT) := by
  unfold ConnectBody
  have hd := DeleteConnection_target s
  generalize DeleteConnection s = s1 at hd
  have e1 : s1.w.MPD_HOST = s.w.MPD_HOST := by
    simp only [target, Prod.mk.injEq] at hd; exact hd.2.2.1
  have e2 : s1.w.MPD_PORT = s.w.MPD_PORT := by
    simp only [target, Prod.mk.injEq] at hd; exact hd.2.2.2
  dsimp only
  rw [e1, e2]
  generalize hH : (connectTarget hostname s.w.MPD_HOST).1 = H
  generalize hP : connectPort port s.w.MPD_PORT = P
  have sH : (connectTarget H s.w.MPD_HOST).1 = H := by
    rw [← hH]; exact connectTarget_stable hostname s.w.MPD_HOST
  have sP : connectPort P s.w.MPD_PORT = P := by
    rw [← hP]; exact connectPort_stable port s.w.MPD_PORT
  have keep : ∀ t, target t = (H, P, s.w.MPD_HOST, s.w.MPD_PORT) → settled t = true :=
    fun t h => settled_of_target t H P _ _ h sH sP
  have h2 : target (mpd_connection_new H P
      ((uiCall .ModeRefresh (s1.setC fun c => { c with currentState_ := "Connecting" })).setC
        fun c => { c with hostname_ := H, port_ := P })) =
      (H, P, s.w.MPD_HOST, s.w.MPD_PORT) := by
    simp [target, mpd_connection_new, uiCall, Sys.setC, Sys.setW, e1, e2]
  have h3 := (CheckError_target rc hrc _ (keep _ h2)).trans h2
  generalize CheckError rc (mpd_connection_new H P
      ((uiCall .ModeRefresh (s1.setC fun c => { c with currentState_ := "Connecting" })).setC
        fun c => { c with hostname_ := H, port_ := P })) = s3 at h3
  split
  · have h4 : target (OnConnected (DisplaySongInformation
        (uiCall .ScreenUpdate (s3.setC fun c => { c with retried_ := false })))) =
        (H, P, s.w.MPD_HOST, s.w.MPD_PORT) := by
      rw [OnConnected_target, DisplaySongInformation_target]; exact h3
    generalize OnConnected (DisplaySongInformation
        (uiCall .ScreenUpdate (s3.setC fun c => { c with retried_ := false }))) = s4 at h4
    have h5 := (GetVersion_target rc hrc s4 (keep _ h4)).trans h4
    generalize GetVersion rc s4 = s5 at h5
    have h6 := (UpdateStatus_target rc hrc ExpectUpdate_default s5 (keep _ h5)).trans h5
    generalize UpdateStatus rc ExpectUpdate_default s5 = s6 at h6
    have h7 : target (uiCall (.Redraw .Playlist) (uiCall (.Redraw .Library)
        (uiCall .InvalidateAll s6))) = (H, P, s.w.MPD_HOST, s.w.MPD_PORT) := h6
    generalize uiCall (.Redraw .Playlist) (uiCall (.Redraw .Library)
        (uiCall .InvalidateAll s6)) = s7 at h7
    have h8 : target (if s7.w.activeWindow ≠ .Library ∧ s7.w.activeWindow ≠ .Playlist then
        uiCall (.Redraw s7.w.activeWindow) s7 else s7) = (H, P, s.w.MPD_HOST, s.w.MPD_PORT) := by
      split
      · exact h7
      · exact h7
    generalize (if s7.w.activeWindow ≠ .Library ∧ s7.w.activeWindow ≠ .Playlist then
        uiCall (.Redraw s7.w.activeWindow) s7 else s7) = s8 at h8
    have h9 := (UpdateStatus_target rc hrc ExpectUpdate_default s8 (keep _ h8)).trans h8
    generalize UpdateStatus rc ExpectUpdate_default s8 = s9 at h9
    split
    · exact (Password_target rc hrc _ s9 (keep _ h9)).trans h9
    · exact h9
  · exact h3

theorem Connect_target : ∀ (n : Nat) (t : Sys), settled t = true →
    target (Connect n t.c.hostname_ t.c.port_ t) = target t := by
  intro n
  induction n with
  | zero => intro t _; rfl
  | succ n ih =>
    intro t ht
    show target (ConnectBody (Connect n) t.c.hostname_ t.c.port_ t) = target t
    rw [ConnectBody_target (Connect n) ih]
    simp only [settled, Bool.and_eq_true, decide_eq_true_eq] at ht
    simp [target, ht.1, ht.2]

theorem Connect_stores_target (n : Nat) (hostname : String) (port : Nat) (s : Sys) :
    target (Connect (n + 1) hostname port s) =
      ((connectTarget hostname s.w.MPD_HOST).1, connectPort port s.w.MPD_PORT,
        s.w.MPD_HOST, s.w.MPD_PORT) :=
  ConnectBody_target (Connect n) (Connect_target n) hostname port s

theorem digitChar_digit (k : Nat) (hk : k < 10) :
    (Nat.digitChar k).isDigit = true ∧ (Nat.digitChar k).toNat - 48 = k := by
  interval_cases k <;> decide

theorem atoiDigits_toDigitsCore : ∀ (fuel n : Nat) (ds : List Char) (acc : Nat), n < fuel →
    ∃ k, atoiDigits (Nat.toDigitsCore 10 fuel n ds) acc = atoiDigits ds (acc * 10 ^ k + n) := by
  intro fuel
  induction fuel with
  | zero => intro n ds acc h; omega
  | succ f ih =>
    intro n ds acc h
    obtain ⟨d1, d2⟩ := digitChar_digit (n % 10) (Nat.mod_lt _ (by decide))
    unfold Nat.toDigitsCore
    dsimp only
    split
    · rename_i h0
      refine ⟨1, ?_⟩
      simp only [atoiDigits, d1, if_true, d2, pow_one]
      congr 1
      omega
    · rename_i h0
      obtain ⟨k, hk⟩ := ih (n / 10) (Nat.digitChar (n % 10) :: ds) acc (by omega)
      refine ⟨k + 1, ?_⟩
      rw [hk]
      simp only [atoiDigits, d1, if_true, d2]
      congr 1
      rw [pow_succ]
      have := Nat.div_add_mod n 10
      nlinarith [this]

theorem toDigitsCore_head : ∀ (fuel n : Nat) (ds : List Char), n < fuel →
    ∃ c rest, Nat.toDigitsCore 10 fuel n ds = c :: rest ∧ c.isDigit = true := by
  intro fuel
  induction fuel with
  | zero => intro n ds h; omega
  | succ f ih =>
    intro n ds h
    unfold Nat.toDigitsCore
    dsimp only
    split
    · exact ⟨_, _, rfl, (digitChar_digit (n % 10) (Nat.mod_lt _ (by decide))).1⟩
    · exact ih (n / 10) _ (by omega)

theorem atoi_digit_head (c : Char) (rest : List Char) (h : c.isDigit = true) :
    atoi (c :: rest) = (atoiDigits (c :: rest) 0 : Int) := by
  have hv : 48 ≤ c.toNat ∧ c.toNat ≤ 57 := by
    simp only [Char.isDigit, Bool.and_eq_true, decide_eq_true_eq] at h
    exact ⟨h.1, h.2⟩
  have hsp : isspace c = false := by
    simp only [isspace, Bool.or_eq_false_iff, decide_eq_false_iff_not, Bool.and_eq_false_imp,
      decide_eq_true_eq]
    omega
  have hm : c ≠ '-' := by rintro rfl; revert hv; decide
  have hp : c ≠ '+' := by rintro rfl; revert hv; decide
  unfold atoi
  rw [List.dropWhile_cons_of_neg (by simp [hsp])]
  unfold atoiSigned
  split
  · rename_i heq; exact absurd (List.cons.inj heq).1 hm
  · rename_i heq; exact absurd (List.cons.inj heq).1 hp
  · rfl

theorem atoi_repr (n : Nat) : atoi (Nat.repr n).data = (n : Int) := by
  show atoi (Nat.toDigitsCore 10 (n + 1) n []) = (n : Int)
  obtain ⟨c, rest, hcr, hc⟩ := toDigitsCore_head (n + 1) n [] (by omega)
  obtain ⟨k, hk⟩ := atoiDigits_toDigitsCore (n + 1) n [] 0 (by omega)
  rw [hcr] at hk ⊢
  rw [atoi_digit_head c rest hc, hk]
  simp [atoiDigits]

/-- Claim C14.  The target of `Connect(host, port)`, for a `uint16_t` port
argument.  Host: a non-empty argument is the host, whatever `MPD_HOST` holds,
with no password; with an empty argument, an `MPD_HOST` of the form
`password@host` (the host part free of `@`) gives that host and that password,
an `MPD_HOST` without `@` is the host with no password, and an unset `MPD_HOST`
gives `localhost` with no password.  Port: a non-zero argument is the port;
with a zero argument, `MPD_PORT` is read by `atoi` into a `uint16_t`, so that
an `MPD_PORT` holding the decimal numeral of a port number `v < 65536` gives
`v`, and an unset `MPD_PORT` gives 0.  After `Connect`, whatever the daemon
answers, `Hostname()` and `Port()` return the resolved host and port. -/
theorem Connect_resolves_target (n : Nat) (hostname : String) (port : Nat) (s : Sys)
    (hport : port < 65536) :
    (hostname ≠ "" → connectTarget hostname s.w.MPD_HOST = (hostname, "")) ∧
    (hostname = "" → ∀ pw h : List Char, '@' ∉ h →
      s.w.MPD_HOST = some (String.mk (pw ++ '@' :: h)) →
      connectTarget hostname s.w.MPD_HOST = (String.mk h, String.mk pw)) ∧
    (hostname = "" → ∀ e : String, '@' ∉ e.data → s.w.MPD_HOST = some e →
      connectTarget hostname s.w.MPD_HOST = (e, "")) ∧
    (hostname = "" → s.w.MPD_HOST = none →
      connectTarget hostname s.w.MPD_HOST = ("localhost", "")) ∧
    (port ≠ 0 → connectPort port s.w.MPD_PORT = port) ∧
    (port = 0 → ∀ e : String, s.w.MPD_PORT = some e →
      connectPort port s.w.MPD_PORT = u16 (atoi e.data)) ∧
    (port = 0 → ∀ v : Nat, v < 65536 → s.w.MPD_PORT = some (toString v) →
      connectPort port s.w.MPD_PORT = v) ∧
    (port = 0 → s.w.MPD_PORT = none → connectPort port s.w.MPD_PORT = 0) ∧
    Hostname (Connect (n + 1) hostname port s) = (connectTarget hostname s.w.MPD_HOST).1 ∧
    Port (Connect (n + 1) hostname port s) = connectPort port s.w.MPD_PORT := by
  have hres := Connect_stores_target n hostname port s
  simp only [target, Prod.mk.injEq] at hres
  have hempty : ("" : String).data.isEmpty = true := rfl
  refine ⟨fun h => connectTarget_arg hostname _ h, ?_, ?_, ?_, ?_, ?_, ?_, ?_, hres.1, ?_⟩
  · rintro rfl pw h hh he
    rw [he]; exact connectTarget_env pw h hh
  · rintro rfl e he henv
    rw [henv]
    simp [connectTarget, hempty, find_last_of_none '@' e.data he]
  · rintro rfl henv
    rw [henv]; rfl
  · intro h
    simp [connectPort, h]
  · rintro rfl e henv
    rw [henv]; rfl
  · rintro rfl v hv henv
    rw [henv]
    show u16 (atoi (Nat.repr v).data) = v
    rw [atoi_repr]
    unfold u16
    omega
  · rintro rfl henv
    rw [henv]; rfl
  · unfold Port
    rw [hres.2.1]
    have := connectPort_lt port s.w.MPD_PORT hport
    unfold u16
    omega

/-- Worked example: `Connect("", 0)` with `MPD_HOST=secret@example.org` and
`MPD_PORT=6601` connects to `example.org`, port 6601, and sends the password
`secret` once connected; `Connect("music", 6600)` ignores both variables. -/
theorem Connect_resolves_target_witness :
    Hostname (Connect 1 "" 0 { c := Client.new, w := c14World }) = "example.org" ∧
    Port (Connect 1 "" 0 { c := Client.new, w := c14World }) = 6601 ∧
    (Connect 1 "" 0 { c := Client.new, w := c14World }).w.calls.head? =
      some (.mpd_connection_new "example.org" 6601) ∧
    (Connect 1 "" 0 { c := Client.new, w := c14World }).w.calls.getLast? =
      some (.mpd_send_password "secret") ∧
    Hostname (Connect 1 "music" 6600 { c := Client.new, w := c14World }) = "music" ∧
    Port (Connect 1 "music" 6600 { c := Client.new, w := c14World }) = 6600 ∧
    Call.mpd_send_password "secret" ∉
      (Connect 1 "music" 6600 { c := Client.new, w := c14World }).w.calls := by
  have h := Connect_resolves_target 0 "" 0 { c := Client.new, w := c14World } (by decide)
  have g := Connect_resolves_target 0 "music" 6600 { c := Client.new, w := c14World }
    (by decide)
  have hh := h.2.1 rfl "secret".data "example.org".data (by decide) rfl
  have hp := h.2.2.2.2.2.2.1 rfl 6601 (by decide) rfl
  have gh := g.1 (by decide)
  have gp := g.2.2.2.2.1 (by decide)
  refine ⟨?_, ?_, by decide, by decide, ?_, ?_, by decide⟩
  · rw [h.2.2.2.2.2.2.2.2.1, hh]
  · rw [h.2.2.2.2.2.2.2.2.2, hp]
  · rw [g.2.2.2.2.2.2.2.2.1, gh]
  · rw [g.2.2.2.2.2.2.2.2.2, gp]

/-! ## The two implementations of the ranged delete -/

theorem DeleteRangeNative_closed (rc : Reconnector) (p1 p2 : Nat) (s : Sys) (conn : Connection)
    (hconn : s.c.connection_ = some conn)
    (hfin : s.w.finishResults.headD .success = .success)
    (h0 : -1 ≤ s.c.currentSongId_) (h1 : s.c.currentSongId_ < 2147483648) (h12 : p1 ≤ p2) :
    (DeleteRangeNative rc p1 p2 s).c.currentSongId_ =
      if (p2 : Int) < s.c.currentSongId_ then s.c.currentSongId_ - ((p2 : Int) - p1)
      else if (p1 : Int) ≤ s.c.currentSongId_ then (p1 : Int)
      else s.c.currentSongId_ := by
  obtain ⟨f1, f2, -⟩ := ClearCommand_frame rc s conn hconn hfin
  obtain ⟨k, hk⟩ := Option.isSome_iff_exists.mp f1
  unfold DeleteRangeNative
  generalize ClearCommand rc s = t at f1 f2 hk
  by_cases hneg : s.c.currentSongId_ = -1
  · simp [libcall, hk, Sys.setW, Sys.setC, f2, hneg]
    omega
  · have hu := u32_of_nonneg s.c.currentSongId_ (by omega) (by omega)
    have hgt : -1 < s.c.currentSongId_ := by omega
    by_cases c1 : (p2 : Int) < s.c.currentSongId_
    · have c1' : p1 < u32 s.c.currentSongId_ ∧ p2 < u32 s.c.currentSongId_ := by omega
      have hs := subU32_of_le p2 p1 h12 (by omega)
      simp [libcall, hk, Sys.setW, Sys.setC, f2, hgt, c1, c1', hs]
      omega
    · have c1' : ¬ (p1 < u32 s.c.currentSongId_ ∧ p2 < u32 s.c.currentSongId_) := by omega
      by_cases c2 : (p1 : Int) ≤ s.c.currentSongId_
      · have c2' : p1 ≤ u32 s.c.currentSongId_ ∧ p2 ≥ u32 s.c.currentSongId_ := by omega
        have hs := subU32_of_le (u32 s.c.currentSongId_) p1 c2'.1 (by omega)
        simp only [libcall, hk, Sys.setW, Sys.setC, f2, hgt, gt_iff_lt, if_true, if_neg c1',
          if_pos c2', hs, if_neg c1, if_pos c2]
        omega
      · have c2' : ¬ (p1 ≤ u32 s.c.currentSongId_ ∧ p2 ≥ u32 s.c.currentSongId_) := by omega
        simp only [libcall, hk, Sys.setW, Sys.setC, f2, hgt, gt_iff_lt, if_true, if_neg c1',
          if_neg c2', if_neg c1, if_neg c2]

theorem DeleteRangeBatched_closed (rc : Reconnector) (p1 p2 : Nat) (s : Sys) (conn : Connection)
    (hconn : s.c.connection_ = some conn)
    (hfin : s.w.finishResults.headD .success = .success)
    (hn : 0 < TotalNumberOfSongs s)
    (h0 : -1 ≤ s.c.currentSongId_) (h1 : s.c.currentSongId_ < 2147483648) (h12 : p1 ≤ p2)
    (hp2 : p2 < 4294967296) :
    (DeleteLoop rc p1 (subU32 p2 p1) (CommandList.open rc condition_default s)).c.currentSongId_ =
      if (p2 : Int) < s.c.currentSongId_ then s.c.currentSongId_ - ((p2 : Int) - p1)
      else if (p1 : Int) ≤ s.c.currentSongId_ then (p1 : Int)
      else s.c.currentSongId_ := by
  obtain ⟨o1, o2, o3, o4⟩ := CommandList_open_frame rc s conn hconn hfin
  obtain ⟨k, hk⟩ := Option.isSome_iff_exists.mp o1
  have hn2 : 0 < TotalNumberOfSongs (CommandList.open rc true s) := by
    rw [TotalNumberOfSongs_congr _ s (by rw [o1, hconn]; rfl) o3]; exact hn
  have hloop := DeleteLoop_index rc p1 (subU32 p2 p1) (CommandList.open rc true s) k hk o2 hn2
    (by rw [o4]; omega) (by rw [o4]; omega)
  show (DeleteLoop rc p1 (subU32 p2 p1) (CommandList.open rc true s)).c.currentSongId_ = _
  rw [hloop, o4, subU32_of_le p2 p1 h12 hp2]
  push_cast [h12]
  split_ifs <;> omega

/-- Claim C15.  The two implementations of the ranged delete agree on the
tracked current-song index.  For every connected client with a non-empty queue
whose pending response drains without error, every tracked index `c ≥ -1` and
all positions `p1 ≤ p2`, the index that `Delete(p1, p2)` hands to its status
poll is the same against a daemon of minor version below 16 (`p2 - p1` batched
`Delete(p1)` calls) as against one of minor version 16 or above (the native
range delete): on both sides it is `c - (p2 - p1)` when `p2 < c`, `p1` when
`p1 ≤ c ≤ p2`, and `c` otherwise. -/
theorem DeleteRange_versions_agree (rc : Reconnector) (s : Sys) (conn : Connection)
    (p1 p2 : Nat) (c lo hi : Int)
    (hconn : s.c.connection_ = some conn)
    (hfin : s.w.finishResults.headD .success = .success)
    (hn : 0 < TotalNumberOfSongs s)
    (hc : s.c.currentSongId_ = c) (h0 : -1 ≤ c) (h1 : c < 2147483648)
    (h12 : p1 ≤ p2) (hp2 : p2 < 4294967296) (hlo : lo < 16) (hhi : 16 ≤ hi) :
    (DeleteRangeSend rc p1 p2 (withMinor lo s)).c.currentSongId_ =
      (DeleteRangeSend rc p1 p2 (withMinor hi s)).c.currentSongId_ ∧
    (DeleteRangeSend rc p1 p2 (withMinor hi s)).c.currentSongId_ =
      (if (p2 : Int) < c then c - ((p2 : Int) - p1) else if (p1 : Int) ≤ c then (p1 : Int) else c) ∧
    DeleteRange rc p1 p2 (withMinor lo s) =
      UpdateStatus rc true
        (CommandList.close rc true (DeleteRangeSend rc p1 p2 (withMinor lo s))) ∧
    DeleteRange rc p1 p2 (withMinor hi s) =
      UpdateStatus rc true (DeleteRangeSend rc p1 p2 (withMinor hi s)) := by
  subst hc
  have hnlo : 0 < TotalNumberOfSongs (withMinor lo s) := hn
  have hnhi : 0 < TotalNumberOfSongs (withMinor hi s) := hn
  have hhi2 : ¬ hi < 16 := by omega
  have e1 : (DeleteRangeSend rc p1 p2 (withMinor lo s)).c.currentSongId_ =
      (if (p2 : Int) < s.c.currentSongId_ then s.c.currentSongId_ - ((p2 : Int) - p1)
        else if (p1 : Int) ≤ s.c.currentSongId_ then (p1 : Int) else s.c.currentSongId_) := by
    unfold DeleteRangeSend
    rw [if_pos (show (withMinor lo s).c.versionMinor_ < 16 from hlo)]
    exact DeleteRangeBatched_closed rc p1 p2 (withMinor lo s) conn hconn hfin hnlo h0 h1 h12 hp2
  have e2 : (DeleteRangeSend rc p1 p2 (withMinor hi s)).c.currentSongId_ =
      (if (p2 : Int) < s.c.currentSongId_ then s.c.currentSongId_ - ((p2 : Int) - p1)
        else if (p1 : Int) ≤ s.c.currentSongId_ then (p1 : Int) else s.c.currentSongId_) := by
    unfold DeleteRangeSend
    rw [if_neg (show ¬ (withMinor hi s).c.versionMinor_ < 16 from hhi2)]
    exact DeleteRangeNative_closed rc p1 p2 (withMinor hi s) conn hconn hfin h0 h1 h12
  refine ⟨e1.trans e2.symm, e2, ?_, ?_⟩
  · have : (withMinor lo s).c.versionMinor_ < 16 := hlo
    simp [DeleteRange, Connected, show (withMinor lo s).c.connection_ = some conn from hconn,
      hnlo, this]
  · have : ¬ (withMinor hi s).c.versionMinor_ < 16 := hhi2
    simp [DeleteRange, Connected, show (withMinor hi s).c.connection_ = some conn from hconn,
      hnhi, this]

/-- Worked example on a queue of 12 entries, `Delete(2, 6)`: a tracked index
of 9 becomes 5, one of 4 becomes 2, one of 1 stays 1 and the unknown index -1
stays -1, against daemon 0.15 and daemon 0.16 alike. -/
theorem DeleteRange_versions_agree_witness :
    ((DeleteRangeSend (Connect 1) 2 6 (c2State 9 15)).c.currentSongId_ = 5 ∧
      (DeleteRangeSend (Connect 1) 2 6 (c2State 9 16)).c.currentSongId_ = 5) ∧
    ((DeleteRangeSend (Connect 1) 2 6 (c2State 4 15)).c.currentSongId_ = 2 ∧
      (DeleteRangeSend (Connect 1) 2 6 (c2State 4 16)).c.currentSongId_ = 2) ∧
    ((DeleteRangeSend (Connect 1) 2 6 (c2State 1 15)).c.currentSongId_ = 1 ∧
      (DeleteRangeSend (Connect 1) 2 6 (c2State 1 16)).c.currentSongId_ = 1) ∧
    ((DeleteRangeSend (Connect 1) 2 6 (c2State (-1) 15)).c.currentSongId_ = -1 ∧
      (DeleteRangeSend (Connect 1) 2 6 (c2State (-1) 16)).c.currentSongId_ = -1) := by
  have h9 := DeleteRange_versions_agree (Connect 1) (c2State 9 0) _ 2 6 9 15 16 rfl rfl
    (by decide) rfl (by decide) (by decide) (by decide) (by decide) (by decide) (by decide)
  have h4 := DeleteRange_versions_agree (Connect 1) (c2State 4 0) _ 2 6 4 15 16 rfl rfl
    (by decide) rfl (by decide) (by decide) (by decide) (by decide) (by decide) (by decide)
  have h1 := DeleteRange_versions_agree (Connect 1) (c2State 1 0) _ 2 6 1 15 16 rfl rfl
    (by decide) rfl (by decide) (by decide) (by decide) (by decide) (by decide) (by decide)
  have hm := DeleteRange_versions_agree (Connect 1) (c2State (-1) 0) _ 2 6 (-1) 15 16 rfl rfl
    (by decide) rfl (by decide) (by decide) (by decide) (by decide) (by decide) (by decide)
  exact ⟨⟨h9.1.trans h9.2.1, h9.2.1⟩, ⟨h4.1.trans h4.2.1, h4.2.1⟩,
    ⟨h1.1.trans h1.2.1, h1.2.1⟩, ⟨hm.1.trans hm.2.1, hm.2.1⟩⟩

end Mpc
